import Mathlib

/-!
# Verification of the isthmus SQL safety pipeline

A shallow embedding, in Lean 4, of the core safety pipeline of the
isthmus gateway: the column-masking engine (`internal/core/domain/masking.go`),
the SQL validator (`PgQueryValidator.Validate`), the read-only executor's
row-cap wrapping (`internal/adapter/postgres/executor.go`), the query-service
orchestration (`internal/core/service/query_service.go`), the policy loader
validation (`internal/adapter/policy/loader.go`), the policy merge
(`internal/adapter/policy/merge.go`) and the cardinality classifier
(`internal/core/domain/cardinality.go`).

Go maps are modelled as association lists (unique keys by construction in Go;
lookups return the first binding and map-update rebinds the key).  Stateful,
in-place mutation is modelled by explicit state passing.  The external
PostgreSQL dialect parser is an opaque collaborator in the source and is a
function parameter here.  Machine integers stay within `Int` (no operation in
the modelled code can overflow an `int64` on the inputs considered), and the
one floating-point computation in the source (`cardinality.go`) is modelled
with an explicit round-to-nearest-even binary64 rounding function over `ℚ`.
-/

/-! ## Scalar values of result rows

Go's `map[string]any` row values.  The decoded scalars relevant to the
masking layer are strings, integers and booleans, plus the untyped `nil`
(SQL NULL).  `render` is Go's `fmt.Sprintf("%v", value)` on these variants.
-/

inductive Value where
  | null : Value
  | str : String → Value
  | int : Int → Value
  | bool : Bool → Value
deriving DecidableEq, Repr

/-- Go's `fmt.Sprintf("%v", value)` default rendering for the scalar
variants above (the `nil` case is never rendered by the masking code:
`ApplyMask` returns early on `nil`). -/
def render : Value → String
  | .null => "<nil>"
  | .str s => s
  | .int n => toString n
  | .bool b => if b then "true" else "false"

/-! ## SHA-256 (Go `crypto/sha256` + `fmt.Sprintf("%x", h)`)

A direct executable implementation of FIPS 180-4 SHA-256 over the UTF-8
bytes of a string, producing the 64-hex-character digest used by the
`hash` mask.  Word arithmetic is `Nat` reduced `% 2^32`.
-/

def w32 (n : Nat) : Nat := n % 4294967296

def rotr32 (x n : Nat) : Nat := w32 ((x >>> n) ||| (x <<< (32 - n)))

def shaCh (x y z : Nat) : Nat := w32 ((x &&& y) ^^^ ((4294967295 - x) &&& z))

def shaMaj (x y z : Nat) : Nat := w32 ((x &&& y) ^^^ (x &&& z) ^^^ (y &&& z))

def shaS0 (x : Nat) : Nat := rotr32 x 2 ^^^ rotr32 x 13 ^^^ rotr32 x 22

def shaS1 (x : Nat) : Nat := rotr32 x 6 ^^^ rotr32 x 11 ^^^ rotr32 x 25

def shas0 (x : Nat) : Nat := rotr32 x 7 ^^^ rotr32 x 18 ^^^ (x >>> 3)

def shas1 (x : Nat) : Nat := rotr32 x 17 ^^^ rotr32 x 19 ^^^ (x >>> 10)

def shaK : List Nat :=
  [1116352408, 1899447441, 3049323471, 3921009573, 961987163, 1508970993,
   2453635748, 2870763221, 3624381080, 310598401, 607225278, 1426881987,
   1925078388, 2162078206, 2614888103, 3248222580, 3835390401, 4022224774,
   264347078, 604807628, 770255983, 1249150122, 1555081692, 1996064986,
   2554220882, 2821834349, 2952996808, 3210313671, 3336571891, 3584528711,
   113926993, 338241895, 666307205, 773529912, 1294757372, 1396182291,
   1695183700, 1986661051, 2177026350, 2456956037, 2730485921, 2820302411,
   3259730800, 3345764771, 3516065817, 3600352804, 4094571909, 275423344,
   430227734, 506948616, 659060556, 883997877, 958139571, 1322822218,
   1537002063, 1747873779, 1955562222, 2024104815, 2227730452, 2361852424,
   2428436474, 2756734187, 3204031479, 3329325298]

/-- UTF-8 encoding of one code point (RFC 3629), as byte values. -/
def utf8Bytes (c : Char) : List Nat :=
  let n := c.toNat
  if n < 0x80 then [n]
  else if n < 0x800 then [0xC0 ||| (n >>> 6), 0x80 ||| (n &&& 0x3F)]
  else if n < 0x10000 then
    [0xE0 ||| (n >>> 12), 0x80 ||| ((n >>> 6) &&& 0x3F), 0x80 ||| (n &&& 0x3F)]
  else
    [0xF0 ||| (n >>> 18), 0x80 ||| ((n >>> 12) &&& 0x3F),
     0x80 ||| ((n >>> 6) &&& 0x3F), 0x80 ||| (n &&& 0x3F)]

def strBytes (s : String) : List Nat := s.toList.flatMap utf8Bytes

/-- SHA-256 padding: append 0x80, zero bytes to 56 mod 64, then the
64-bit big-endian bit length. -/
def shaPad (msg : List Nat) : List Nat :=
  let len := msg.length
  let zeros := (55 + 64 - len % 64) % 64
  let bitLen := 8 * len
  msg ++ [0x80] ++ List.replicate zeros 0 ++
    ((List.range 8).map fun i => (bitLen >>> (8 * (7 - i))) &&& 0xFF)

/-- Big-endian 32-bit words from bytes. -/
def bytesToWords : List Nat → List Nat
  | b0 :: b1 :: b2 :: b3 :: rest =>
      (((b0 <<< 8 ||| b1) <<< 8 ||| b2) <<< 8 ||| b3) :: bytesToWords rest
  | _ => []

/-- The 64-entry message schedule from a 16-word block. -/
def shaSchedule (block : List Nat) : List Nat :=
  let step : List Nat → Nat → List Nat := fun ws i =>
    if i < 16 then ws ++ [block.getD i 0]
    else ws ++ [w32 (shas1 (ws.getD (i - 2) 0) + ws.getD (i - 7) 0 +
                     shas0 (ws.getD (i - 15) 0) + ws.getD (i - 16) 0)]
  (List.range 64).foldl step []

/-- One round of the compression function on state `(a,b,c,d,e,f,g,h)`. -/
def shaRound (st : List Nat) (kw : Nat × Nat) : List Nat :=
  match st with
  | [a, b, c, d, e, f, g, h] =>
    let t1 := w32 (h + shaS1 e + shaCh e f g + kw.1 + kw.2)
    let t2 := w32 (shaS0 a + shaMaj a b c)
    [w32 (t1 + t2), a, b, c, w32 (d + t1), e, f, g]
  | st => st

/-- Process one 16-word block against the running hash state. -/
def shaBlock (hs : List Nat) (block : List Nat) : List Nat :=
  let ws := shaSchedule block
  let st := (shaK.zip ws).foldl shaRound hs
  (hs.zip st).map fun p => w32 (p.1 + p.2)

def shaBlocks (hs : List Nat) : List Nat → List Nat
  | [] => hs
  | w :: ws => shaBlocks (shaBlock hs ((w :: ws).take 16)) ((w :: ws).drop 16)
termination_by ws => ws.length
decreasing_by
  simp only [List.length_drop, List.length_cons]
  omega

def shaInit : List Nat :=
  [1779033703, 3144134277, 1013904242, 2773480762,
   1359893119, 2600822924, 528734635, 1541459225]

def hexDigit (n : Nat) : Char :=
  if n < 10 then Char.ofNat (48 + n) else Char.ofNat (87 + n)

/-- Lower-case hex of one 32-bit word (8 digits). -/
def wordHex (x : Nat) : List Char :=
  (List.range 8).map fun i => hexDigit ((x >>> (4 * (7 - i))) &&& 0xF)

/-- `fmt.Sprintf("%x", sha256.Sum256([]byte(s)))`: the 64-hex-char SHA-256
of the UTF-8 bytes of `s`. -/
def sha256hex (s : String) : String :=
  let digest := shaBlocks shaInit (bytesToWords (shaPad (strBytes s)))
  String.mk (digest.flatMap wordHex)

/-! ## Mask types and `ApplyMask` (`internal/core/domain/masking.go`)

Go's `MaskType` is a string type; the constants below are the enumeration
from the source.  `maskPartialFn` is the source's `maskPartial` (named to
keep the Lean identifier clear of keyword suffixes): it converts the
rendering to runes (code points, as `String.toList` here) and rebuilds it.
-/

def MaskRedact : String := "redact"

def MaskHash : String := "hash"

def MaskPartialKind : String := "partial"

def MaskNull : String := "null"

/-- `MaskType.Valid`: recognised masking strategies, including the zero
value `""` which means "no mask". -/
def maskTypeValid (m : String) : Bool :=
  m == MaskRedact || m == MaskHash || m == MaskPartialKind || m == MaskNull || m == ""

/-- Source `maskPartial`: reveal only the last 4 runes of the rendering,
replacing the rest with asterisks; renderings of length ≤ 4 return
`"***" + s`.  Rune counting matches the Go `[]rune` conversion. -/
def maskPartialFn (s : String) : String :=
  let runes := s.toList
  if runes.length ≤ 4 then "***" ++ s
  else String.mk (runes.mapIdx fun i c => if i < runes.length - 4 then '*' else c)

/-- Source `ApplyMask`: transforms a value according to the mask type.
The `nil` check comes first; the `switch` on the string-typed mask is the
if-chain below (its `default` leaves the value unchanged). -/
def applyMask (value : Value) (maskType : String) : Value :=
  if value = Value.null then Value.null
  else if maskType = MaskRedact then Value.str "***"
  else if maskType = MaskHash then Value.str (sha256hex (render value))
  else if maskType = MaskPartialKind then Value.str (maskPartialFn (render value))
  else if maskType = MaskNull then Value.null
  else value

/-! ## Result rows and the row maskers

A Go `map[string]any` row is an association list with unique keys (result
column names); `rowLookup` is map indexing and `rowUpdate` is map
assignment to an existing key (`row[col] = v` rebinds every occurrence,
which on unique-key rows is exactly the Go map write). -/

abbrev Row : Type := List (String × Value)

def rowLookup (row : Row) (k : String) : Option Value :=
  (List.lookup k (row : List (String × Value)))

def rowUpdate (row : Row) (k : String) (v : Value) : Row :=
  (row : List (String × Value)).map fun p => if p.1 = k then (k, v) else p

/-- Inner loop of `MaskRows`: `for col, maskType := range masks { if val,
exists := row[col]; exists { row[col] = ApplyMask(val, maskType) } }`. -/
def maskRow (row : Row) (masks : List (String × String)) : Row :=
  masks.foldl
    (fun r p =>
      match rowLookup r p.1 with
      | some val => rowUpdate r p.1 (applyMask val p.2)
      | none => r)
    row

/-- Source `MaskRows`: applies column masks to result rows (in place in Go;
functionally here).  The empty-mask early return is kept. -/
def MaskRows (rows : List Row) (masks : List (String × String)) : List Row :=
  if masks.length = 0 then rows
  else rows.map (fun row => maskRow row masks)

/-- Inner loop of `MaskRowsWithAliases`: exact-name match first, then a
single alias resolution per mask entry. -/
def maskRowWithAliases (row : Row) (masks aliases : List (String × String)) : Row :=
  masks.foldl
    (fun r p =>
      match rowLookup r p.1 with
      | some val => rowUpdate r p.1 (applyMask val p.2)
      | none =>
        match List.lookup p.1 aliases with
        | some a =>
          match rowLookup r a with
          | some val => rowUpdate r a (applyMask val p.2)
          | none => r
        | none => r)
    row

/-- Source `MaskRowsWithAliases`: resolves column aliases; with no aliases
it falls back to `MaskRows`. -/
def MaskRowsWithAliases (rows : List Row) (masks aliases : List (String × String)) :
    List Row :=
  if masks.length = 0 then rows
  else if aliases.length = 0 then MaskRows rows masks
  else rows.map (fun row => maskRowWithAliases row masks aliases)

/-! ## SQL validator (`PgQueryValidator.Validate`)

The external `pg_query` parser returns a statement tree or an error; it is
modelled as a function parameter `parse : String → Except String ParseTree`.
A tree is the list `tree.Stmts`; each raw statement's `.Stmt` field is a
nullable protobuf pointer, hence `Option Stmt`.  The discriminants the
validator inspects are `SelectStmt`, `ExplainStmt` (whose protobuf carries a
nullable inner statement) and everything else (`otherStmt`, tagged with the
node name, e.g. "DeleteStmt"). -/

inductive Stmt where
  | selectStmt : Stmt
  | explainStmt : Option Stmt → Stmt
  | otherStmt : String → Stmt

abbrev ParseTree : Type := List (Option Stmt)

/-- Go `unicode.IsSpace` (the predicate behind `strings.TrimSpace`). -/
def goIsSpace (c : Char) : Bool :=
  let n := c.toNat
  (9 ≤ n && n ≤ 13) || n = 32 || n = 0x85 || n = 0xA0 || n = 0x1680 ||
    (0x2000 ≤ n && n ≤ 0x200A) || n = 0x2028 || n = 0x2029 || n = 0x202F ||
    n = 0x205F || n = 0x3000

/-- Go `strings.TrimSpace`. -/
def trimSpace (s : String) : String :=
  String.mk (((s.toList.dropWhile goIsSpace).reverse.dropWhile goIsSpace).reverse)

/-- The validator's outcomes: `nil` (admitted) is `none`; the sentinel
errors of `validator.go` are the constructors below, `errParseFailed`
wrapping the parser's diagnostic. -/
inductive ValError where
  | errEmptyQuery : ValError
  | errNotAllowed : ValError
  | errMultiStatement : ValError
  | errParseFailed : String → ValError
deriving DecidableEq, Repr

/-- Source `Validate`: trim; reject empty; parse; reject parse failure,
empty tree, multi-statement trees and nil statements; admit exactly a
top-level `SelectStmt` or `ExplainStmt` (any inner), reject the rest. -/
def Validate (parse : String → Except String ParseTree) (sql : String) :
    Option ValError :=
  let trimmed := trimSpace sql
  if trimmed = "" then some ValError.errEmptyQuery
  else
    match parse trimmed with
    | Except.error e => some (ValError.errParseFailed e)
    | Except.ok stmts =>
      if stmts.length = 0 then some ValError.errEmptyQuery
      else if stmts.length > 1 then some ValError.errMultiStatement
      else
        match stmts.head? with
        | none => some ValError.errEmptyQuery
        | some none => some ValError.errEmptyQuery
        | some (some Stmt.selectStmt) => none
        | some (some (Stmt.explainStmt _)) => none
        | some (some (Stmt.otherStmt _)) => some ValError.errNotAllowed

/-! ## Executor wrapping and row cap (`internal/adapter/postgres/executor.go`)

`isExplain` uppercases the trimmed SQL with the Unicode simple case
mapping of `strings.ToUpper` and tests the `EXPLAIN` prefix.  A
non-EXPLAIN statement is wrapped in the
row-capping subquery; the database itself is the external collaborator
that interprets the wrapped SQL, modelled as a function from the submitted
SQL text to rows or an error. -/

set_option maxHeartbeats 1000000 in
/-- The non-ASCII part of the Unicode simple uppercase mapping used by
Go `unicode.ToUpper` (code point ↦ upper code point, identity entries
omitted). -/
def goUpperTable : List (Nat × Nat) :=
  [(181, 924), (224, 192), (225, 193), (226, 194), (227, 195), (228, 196), (229, 197),
   (230, 198), (231, 199), (232, 200), (233, 201), (234, 202), (235, 203), (236, 204),
   (237, 205), (238, 206), (239, 207), (240, 208), (241, 209), (242, 210), (243, 211),
   (244, 212), (245, 213), (246, 214), (248, 216), (249, 217), (250, 218), (251, 219),
   (252, 220), (253, 221), (254, 222), (255, 376), (257, 256), (259, 258), (261, 260),
   (263, 262), (265, 264), (267, 266), (269, 268), (271, 270), (273, 272), (275, 274),
   (277, 276), (279, 278), (281, 280), (283, 282), (285, 284), (287, 286), (289, 288),
   (291, 290), (293, 292), (295, 294), (297, 296), (299, 298), (301, 300), (303, 302),
   (305, 73), (307, 306), (309, 308), (311, 310), (314, 313), (316, 315), (318, 317),
   (320, 319), (322, 321), (324, 323), (326, 325), (328, 327), (331, 330), (333, 332),
   (335, 334), (337, 336), (339, 338), (341, 340), (343, 342), (345, 344), (347, 346),
   (349, 348), (351, 350), (353, 352), (355, 354), (357, 356), (359, 358), (361, 360),
   (363, 362), (365, 364), (367, 366), (369, 368), (371, 370), (373, 372), (375, 374),
   (378, 377), (380, 379), (382, 381), (383, 83), (384, 579), (387, 386), (389, 388),
   (392, 391), (396, 395), (402, 401), (405, 502), (409, 408), (410, 573), (414, 544),
   (417, 416), (419, 418), (421, 420), (424, 423), (429, 428), (432, 431), (436, 435),
   (438, 437), (441, 440), (445, 444), (447, 503), (453, 452), (454, 452), (456, 455),
   (457, 455), (459, 458), (460, 458), (462, 461), (464, 463), (466, 465), (468, 467),
   (470, 469), (472, 471), (474, 473), (476, 475), (477, 398), (479, 478), (481, 480),
   (483, 482), (485, 484), (487, 486), (489, 488), (491, 490), (493, 492), (495, 494),
   (498, 497), (499, 497), (501, 500), (505, 504), (507, 506), (509, 508), (511, 510),
   (513, 512), (515, 514), (517, 516), (519, 518), (521, 520), (523, 522), (525, 524),
   (527, 526), (529, 528), (531, 530), (533, 532), (535, 534), (537, 536), (539, 538),
   (541, 540), (543, 542), (547, 546), (549, 548), (551, 550), (553, 552), (555, 554),
   (557, 556), (559, 558), (561, 560), (563, 562), (572, 571), (575, 11390), (576, 11391),
   (578, 577), (583, 582), (585, 584), (587, 586), (589, 588), (591, 590), (592, 11375),
   (593, 11373), (594, 11376), (595, 385), (596, 390), (598, 393), (599, 394), (601, 399),
   (603, 400), (604, 42923), (608, 403), (609, 42924), (611, 404), (613, 42893), (614, 42922),
   (616, 407), (617, 406), (618, 42926), (619, 11362), (620, 42925), (623, 412), (625, 11374),
   (626, 413), (629, 415), (637, 11364), (640, 422), (642, 42949), (643, 425), (647, 42929),
   (648, 430), (649, 580), (650, 433), (651, 434), (652, 581), (658, 439), (669, 42930),
   (670, 42928), (837, 921), (881, 880), (883, 882), (887, 886), (891, 1021), (892, 1022),
   (893, 1023), (940, 902), (941, 904), (942, 905), (943, 906), (945, 913), (946, 914),
   (947, 915), (948, 916), (949, 917), (950, 918), (951, 919), (952, 920), (953, 921),
   (954, 922), (955, 923), (956, 924), (957, 925), (958, 926), (959, 927), (960, 928),
   (961, 929), (962, 931), (963, 931), (964, 932), (965, 933), (966, 934), (967, 935),
   (968, 936), (969, 937), (970, 938), (971, 939), (972, 908), (973, 910), (974, 911),
   (976, 914), (977, 920), (981, 934), (982, 928), (983, 975), (985, 984), (987, 986),
   (989, 988), (991, 990), (993, 992), (995, 994), (997, 996), (999, 998), (1001, 1000),
   (1003, 1002), (1005, 1004), (1007, 1006), (1008, 922), (1009, 929), (1010, 1017), (1011, 895),
   (1013, 917), (1016, 1015), (1019, 1018), (1072, 1040), (1073, 1041), (1074, 1042), (1075, 1043),
   (1076, 1044), (1077, 1045), (1078, 1046), (1079, 1047), (1080, 1048), (1081, 1049), (1082, 1050),
   (1083, 1051), (1084, 1052), (1085, 1053), (1086, 1054), (1087, 1055), (1088, 1056), (1089, 1057),
   (1090, 1058), (1091, 1059), (1092, 1060), (1093, 1061), (1094, 1062), (1095, 1063), (1096, 1064),
   (1097, 1065), (1098, 1066), (1099, 1067), (1100, 1068), (1101, 1069), (1102, 1070), (1103, 1071),
   (1104, 1024), (1105, 1025), (1106, 1026), (1107, 1027), (1108, 1028), (1109, 1029), (1110, 1030),
   (1111, 1031), (1112, 1032), (1113, 1033), (1114, 1034), (1115, 1035), (1116, 1036), (1117, 1037),
   (1118, 1038), (1119, 1039), (1121, 1120), (1123, 1122), (1125, 1124), (1127, 1126), (1129, 1128),
   (1131, 1130), (1133, 1132), (1135, 1134), (1137, 1136), (1139, 1138), (1141, 1140), (1143, 1142),
   (1145, 1144), (1147, 1146), (1149, 1148), (1151, 1150), (1153, 1152), (1163, 1162), (1165, 1164),
   (1167, 1166), (1169, 1168), (1171, 1170), (1173, 1172), (1175, 1174), (1177, 1176), (1179, 1178),
   (1181, 1180), (1183, 1182), (1185, 1184), (1187, 1186), (1189, 1188), (1191, 1190), (1193, 1192),
   (1195, 1194), (1197, 1196), (1199, 1198), (1201, 1200), (1203, 1202), (1205, 1204), (1207, 1206),
   (1209, 1208), (1211, 1210), (1213, 1212), (1215, 1214), (1218, 1217), (1220, 1219), (1222, 1221),
   (1224, 1223), (1226, 1225), (1228, 1227), (1230, 1229), (1231, 1216), (1233, 1232), (1235, 1234),
   (1237, 1236), (1239, 1238), (1241, 1240), (1243, 1242), (1245, 1244), (1247, 1246), (1249, 1248),
   (1251, 1250), (1253, 1252), (1255, 1254), (1257, 1256), (1259, 1258), (1261, 1260), (1263, 1262),
   (1265, 1264), (1267, 1266), (1269, 1268), (1271, 1270), (1273, 1272), (1275, 1274), (1277, 1276),
   (1279, 1278), (1281, 1280), (1283, 1282), (1285, 1284), (1287, 1286), (1289, 1288), (1291, 1290),
   (1293, 1292), (1295, 1294), (1297, 1296), (1299, 1298), (1301, 1300), (1303, 1302), (1305, 1304),
   (1307, 1306), (1309, 1308), (1311, 1310), (1313, 1312), (1315, 1314), (1317, 1316), (1319, 1318),
   (1321, 1320), (1323, 1322), (1325, 1324), (1327, 1326), (1377, 1329), (1378, 1330), (1379, 1331),
   (1380, 1332), (1381, 1333), (1382, 1334), (1383, 1335), (1384, 1336), (1385, 1337), (1386, 1338),
   (1387, 1339), (1388, 1340), (1389, 1341), (1390, 1342), (1391, 1343), (1392, 1344), (1393, 1345),
   (1394, 1346), (1395, 1347), (1396, 1348), (1397, 1349), (1398, 1350), (1399, 1351), (1400, 1352),
   (1401, 1353), (1402, 1354), (1403, 1355), (1404, 1356), (1405, 1357), (1406, 1358), (1407, 1359),
   (1408, 1360), (1409, 1361), (1410, 1362), (1411, 1363), (1412, 1364), (1413, 1365), (1414, 1366),
   (4304, 7312), (4305, 7313), (4306, 7314), (4307, 7315), (4308, 7316), (4309, 7317), (4310, 7318),
   (4311, 7319), (4312, 7320), (4313, 7321), (4314, 7322), (4315, 7323), (4316, 7324), (4317, 7325),
   (4318, 7326), (4319, 7327), (4320, 7328), (4321, 7329), (4322, 7330), (4323, 7331), (4324, 7332),
   (4325, 7333), (4326, 7334), (4327, 7335), (4328, 7336), (4329, 7337), (4330, 7338), (4331, 7339),
   (4332, 7340), (4333, 7341), (4334, 7342), (4335, 7343), (4336, 7344), (4337, 7345), (4338, 7346),
   (4339, 7347), (4340, 7348), (4341, 7349), (4342, 7350), (4343, 7351), (4344, 7352), (4345, 7353),
   (4346, 7354), (4349, 7357), (4350, 7358), (4351, 7359), (5112, 5104), (5113, 5105), (5114, 5106),
   (5115, 5107), (5116, 5108), (5117, 5109), (7296, 1042), (7297, 1044), (7298, 1054), (7299, 1057),
   (7300, 1058), (7301, 1058), (7302, 1066), (7303, 1122), (7304, 42570), (7545, 42877), (7549, 11363),
   (7566, 42950), (7681, 7680), (7683, 7682), (7685, 7684), (7687, 7686), (7689, 7688), (7691, 7690),
   (7693, 7692), (7695, 7694), (7697, 7696), (7699, 7698), (7701, 7700), (7703, 7702), (7705, 7704),
   (7707, 7706), (7709, 7708), (7711, 7710), (7713, 7712), (7715, 7714), (7717, 7716), (7719, 7718),
   (7721, 7720), (7723, 7722), (7725, 7724), (7727, 7726), (7729, 7728), (7731, 7730), (7733, 7732),
   (7735, 7734), (7737, 7736), (7739, 7738), (7741, 7740), (7743, 7742), (7745, 7744), (7747, 7746),
   (7749, 7748), (7751, 7750), (7753, 7752), (7755, 7754), (7757, 7756), (7759, 7758), (7761, 7760),
   (7763, 7762), (7765, 7764), (7767, 7766), (7769, 7768), (7771, 7770), (7773, 7772), (7775, 7774),
   (7777, 7776), (7779, 7778), (7781, 7780), (7783, 7782), (7785, 7784), (7787, 7786), (7789, 7788),
   (7791, 7790), (7793, 7792), (7795, 7794), (7797, 7796), (7799, 7798), (7801, 7800), (7803, 7802),
   (7805, 7804), (7807, 7806), (7809, 7808), (7811, 7810), (7813, 7812), (7815, 7814), (7817, 7816),
   (7819, 7818), (7821, 7820), (7823, 7822), (7825, 7824), (7827, 7826), (7829, 7828), (7835, 7776),
   (7841, 7840), (7843, 7842), (7845, 7844), (7847, 7846), (7849, 7848), (7851, 7850), (7853, 7852),
   (7855, 7854), (7857, 7856), (7859, 7858), (7861, 7860), (7863, 7862), (7865, 7864), (7867, 7866),
   (7869, 7868), (7871, 7870), (7873, 7872), (7875, 7874), (7877, 7876), (7879, 7878), (7881, 7880),
   (7883, 7882), (7885, 7884), (7887, 7886), (7889, 7888), (7891, 7890), (7893, 7892), (7895, 7894),
   (7897, 7896), (7899, 7898), (7901, 7900), (7903, 7902), (7905, 7904), (7907, 7906), (7909, 7908),
   (7911, 7910), (7913, 7912), (7915, 7914), (7917, 7916), (7919, 7918), (7921, 7920), (7923, 7922),
   (7925, 7924), (7927, 7926), (7929, 7928), (7931, 7930), (7933, 7932), (7935, 7934), (7936, 7944),
   (7937, 7945), (7938, 7946), (7939, 7947), (7940, 7948), (7941, 7949), (7942, 7950), (7943, 7951),
   (7952, 7960), (7953, 7961), (7954, 7962), (7955, 7963), (7956, 7964), (7957, 7965), (7968, 7976),
   (7969, 7977), (7970, 7978), (7971, 7979), (7972, 7980), (7973, 7981), (7974, 7982), (7975, 7983),
   (7984, 7992), (7985, 7993), (7986, 7994), (7987, 7995), (7988, 7996), (7989, 7997), (7990, 7998),
   (7991, 7999), (8000, 8008), (8001, 8009), (8002, 8010), (8003, 8011), (8004, 8012), (8005, 8013),
   (8017, 8025), (8019, 8027), (8021, 8029), (8023, 8031), (8032, 8040), (8033, 8041), (8034, 8042),
   (8035, 8043), (8036, 8044), (8037, 8045), (8038, 8046), (8039, 8047), (8048, 8122), (8049, 8123),
   (8050, 8136), (8051, 8137), (8052, 8138), (8053, 8139), (8054, 8154), (8055, 8155), (8056, 8184),
   (8057, 8185), (8058, 8170), (8059, 8171), (8060, 8186), (8061, 8187), (8112, 8120), (8113, 8121),
   (8126, 921), (8144, 8152), (8145, 8153), (8160, 8168), (8161, 8169), (8165, 8172), (8526, 8498),
   (8560, 8544), (8561, 8545), (8562, 8546), (8563, 8547), (8564, 8548), (8565, 8549), (8566, 8550),
   (8567, 8551), (8568, 8552), (8569, 8553), (8570, 8554), (8571, 8555), (8572, 8556), (8573, 8557),
   (8574, 8558), (8575, 8559), (8580, 8579), (9424, 9398), (9425, 9399), (9426, 9400), (9427, 9401),
   (9428, 9402), (9429, 9403), (9430, 9404), (9431, 9405), (9432, 9406), (9433, 9407), (9434, 9408),
   (9435, 9409), (9436, 9410), (9437, 9411), (9438, 9412), (9439, 9413), (9440, 9414), (9441, 9415),
   (9442, 9416), (9443, 9417), (9444, 9418), (9445, 9419), (9446, 9420), (9447, 9421), (9448, 9422),
   (9449, 9423), (11312, 11264), (11313, 11265), (11314, 11266), (11315, 11267), (11316, 11268), (11317, 11269),
   (11318, 11270), (11319, 11271), (11320, 11272), (11321, 11273), (11322, 11274), (11323, 11275), (11324, 11276),
   (11325, 11277), (11326, 11278), (11327, 11279), (11328, 11280), (11329, 11281), (11330, 11282), (11331, 11283),
   (11332, 11284), (11333, 11285), (11334, 11286), (11335, 11287), (11336, 11288), (11337, 11289), (11338, 11290),
   (11339, 11291), (11340, 11292), (11341, 11293), (11342, 11294), (11343, 11295), (11344, 11296), (11345, 11297),
   (11346, 11298), (11347, 11299), (11348, 11300), (11349, 11301), (11350, 11302), (11351, 11303), (11352, 11304),
   (11353, 11305), (11354, 11306), (11355, 11307), (11356, 11308), (11357, 11309), (11358, 11310), (11359, 11311),
   (11361, 11360), (11365, 570), (11366, 574), (11368, 11367), (11370, 11369), (11372, 11371), (11379, 11378),
   (11382, 11381), (11393, 11392), (11395, 11394), (11397, 11396), (11399, 11398), (11401, 11400), (11403, 11402),
   (11405, 11404), (11407, 11406), (11409, 11408), (11411, 11410), (11413, 11412), (11415, 11414), (11417, 11416),
   (11419, 11418), (11421, 11420), (11423, 11422), (11425, 11424), (11427, 11426), (11429, 11428), (11431, 11430),
   (11433, 11432), (11435, 11434), (11437, 11436), (11439, 11438), (11441, 11440), (11443, 11442), (11445, 11444),
   (11447, 11446), (11449, 11448), (11451, 11450), (11453, 11452), (11455, 11454), (11457, 11456), (11459, 11458),
   (11461, 11460), (11463, 11462), (11465, 11464), (11467, 11466), (11469, 11468), (11471, 11470), (11473, 11472),
   (11475, 11474), (11477, 11476), (11479, 11478), (11481, 11480), (11483, 11482), (11485, 11484), (11487, 11486),
   (11489, 11488), (11491, 11490), (11500, 11499), (11502, 11501), (11507, 11506), (11520, 4256), (11521, 4257),
   (11522, 4258), (11523, 4259), (11524, 4260), (11525, 4261), (11526, 4262), (11527, 4263), (11528, 4264),
   (11529, 4265), (11530, 4266), (11531, 4267), (11532, 4268), (11533, 4269), (11534, 4270), (11535, 4271),
   (11536, 4272), (11537, 4273), (11538, 4274), (11539, 4275), (11540, 4276), (11541, 4277), (11542, 4278),
   (11543, 4279), (11544, 4280), (11545, 4281), (11546, 4282), (11547, 4283), (11548, 4284), (11549, 4285),
   (11550, 4286), (11551, 4287), (11552, 4288), (11553, 4289), (11554, 4290), (11555, 4291), (11556, 4292),
   (11557, 4293), (11559, 4295), (11565, 4301), (42561, 42560), (42563, 42562), (42565, 42564), (42567, 42566),
   (42569, 42568), (42571, 42570), (42573, 42572), (42575, 42574), (42577, 42576), (42579, 42578), (42581, 42580),
   (42583, 42582), (42585, 42584), (42587, 42586), (42589, 42588), (42591, 42590), (42593, 42592), (42595, 42594),
   (42597, 42596), (42599, 42598), (42601, 42600), (42603, 42602), (42605, 42604), (42625, 42624), (42627, 42626),
   (42629, 42628), (42631, 42630), (42633, 42632), (42635, 42634), (42637, 42636), (42639, 42638), (42641, 42640),
   (42643, 42642), (42645, 42644), (42647, 42646), (42649, 42648), (42651, 42650), (42787, 42786), (42789, 42788),
   (42791, 42790), (42793, 42792), (42795, 42794), (42797, 42796), (42799, 42798), (42803, 42802), (42805, 42804),
   (42807, 42806), (42809, 42808), (42811, 42810), (42813, 42812), (42815, 42814), (42817, 42816), (42819, 42818),
   (42821, 42820), (42823, 42822), (42825, 42824), (42827, 42826), (42829, 42828), (42831, 42830), (42833, 42832),
   (42835, 42834), (42837, 42836), (42839, 42838), (42841, 42840), (42843, 42842), (42845, 42844), (42847, 42846),
   (42849, 42848), (42851, 42850), (42853, 42852), (42855, 42854), (42857, 42856), (42859, 42858), (42861, 42860),
   (42863, 42862), (42874, 42873), (42876, 42875), (42879, 42878), (42881, 42880), (42883, 42882), (42885, 42884),
   (42887, 42886), (42892, 42891), (42897, 42896), (42899, 42898), (42900, 42948), (42903, 42902), (42905, 42904),
   (42907, 42906), (42909, 42908), (42911, 42910), (42913, 42912), (42915, 42914), (42917, 42916), (42919, 42918),
   (42921, 42920), (42933, 42932), (42935, 42934), (42937, 42936), (42939, 42938), (42941, 42940), (42943, 42942),
   (42945, 42944), (42947, 42946), (42952, 42951), (42954, 42953), (42961, 42960), (42967, 42966), (42969, 42968),
   (42998, 42997), (43859, 42931), (43888, 5024), (43889, 5025), (43890, 5026), (43891, 5027), (43892, 5028),
   (43893, 5029), (43894, 5030), (43895, 5031), (43896, 5032), (43897, 5033), (43898, 5034), (43899, 5035),
   (43900, 5036), (43901, 5037), (43902, 5038), (43903, 5039), (43904, 5040), (43905, 5041), (43906, 5042),
   (43907, 5043), (43908, 5044), (43909, 5045), (43910, 5046), (43911, 5047), (43912, 5048), (43913, 5049),
   (43914, 5050), (43915, 5051), (43916, 5052), (43917, 5053), (43918, 5054), (43919, 5055), (43920, 5056),
   (43921, 5057), (43922, 5058), (43923, 5059), (43924, 5060), (43925, 5061), (43926, 5062), (43927, 5063),
   (43928, 5064), (43929, 5065), (43930, 5066), (43931, 5067), (43932, 5068), (43933, 5069), (43934, 5070),
   (43935, 5071), (43936, 5072), (43937, 5073), (43938, 5074), (43939, 5075), (43940, 5076), (43941, 5077),
   (43942, 5078), (43943, 5079), (43944, 5080), (43945, 5081), (43946, 5082), (43947, 5083), (43948, 5084),
   (43949, 5085), (43950, 5086), (43951, 5087), (43952, 5088), (43953, 5089), (43954, 5090), (43955, 5091),
   (43956, 5092), (43957, 5093), (43958, 5094), (43959, 5095), (43960, 5096), (43961, 5097), (43962, 5098),
   (43963, 5099), (43964, 5100), (43965, 5101), (43966, 5102), (43967, 5103), (65345, 65313), (65346, 65314),
   (65347, 65315), (65348, 65316), (65349, 65317), (65350, 65318), (65351, 65319), (65352, 65320), (65353, 65321),
   (65354, 65322), (65355, 65323), (65356, 65324), (65357, 65325), (65358, 65326), (65359, 65327), (65360, 65328),
   (65361, 65329), (65362, 65330), (65363, 65331), (65364, 65332), (65365, 65333), (65366, 65334), (65367, 65335),
   (65368, 65336), (65369, 65337), (65370, 65338), (66600, 66560), (66601, 66561), (66602, 66562), (66603, 66563),
   (66604, 66564), (66605, 66565), (66606, 66566), (66607, 66567), (66608, 66568), (66609, 66569), (66610, 66570),
   (66611, 66571), (66612, 66572), (66613, 66573), (66614, 66574), (66615, 66575), (66616, 66576), (66617, 66577),
   (66618, 66578), (66619, 66579), (66620, 66580), (66621, 66581), (66622, 66582), (66623, 66583), (66624, 66584),
   (66625, 66585), (66626, 66586), (66627, 66587), (66628, 66588), (66629, 66589), (66630, 66590), (66631, 66591),
   (66632, 66592), (66633, 66593), (66634, 66594), (66635, 66595), (66636, 66596), (66637, 66597), (66638, 66598),
   (66639, 66599), (66776, 66736), (66777, 66737), (66778, 66738), (66779, 66739), (66780, 66740), (66781, 66741),
   (66782, 66742), (66783, 66743), (66784, 66744), (66785, 66745), (66786, 66746), (66787, 66747), (66788, 66748),
   (66789, 66749), (66790, 66750), (66791, 66751), (66792, 66752), (66793, 66753), (66794, 66754), (66795, 66755),
   (66796, 66756), (66797, 66757), (66798, 66758), (66799, 66759), (66800, 66760), (66801, 66761), (66802, 66762),
   (66803, 66763), (66804, 66764), (66805, 66765), (66806, 66766), (66807, 66767), (66808, 66768), (66809, 66769),
   (66810, 66770), (66811, 66771), (66967, 66928), (66968, 66929), (66969, 66930), (66970, 66931), (66971, 66932),
   (66972, 66933), (66973, 66934), (66974, 66935), (66975, 66936), (66976, 66937), (66977, 66938), (66979, 66940),
   (66980, 66941), (66981, 66942), (66982, 66943), (66983, 66944), (66984, 66945), (66985, 66946), (66986, 66947),
   (66987, 66948), (66988, 66949), (66989, 66950), (66990, 66951), (66991, 66952), (66992, 66953), (66993, 66954),
   (66995, 66956), (66996, 66957), (66997, 66958), (66998, 66959), (66999, 66960), (67000, 66961), (67001, 66962),
   (67003, 66964), (67004, 66965), (68800, 68736), (68801, 68737), (68802, 68738), (68803, 68739), (68804, 68740),
   (68805, 68741), (68806, 68742), (68807, 68743), (68808, 68744), (68809, 68745), (68810, 68746), (68811, 68747),
   (68812, 68748), (68813, 68749), (68814, 68750), (68815, 68751), (68816, 68752), (68817, 68753), (68818, 68754),
   (68819, 68755), (68820, 68756), (68821, 68757), (68822, 68758), (68823, 68759), (68824, 68760), (68825, 68761),
   (68826, 68762), (68827, 68763), (68828, 68764), (68829, 68765), (68830, 68766), (68831, 68767), (68832, 68768),
   (68833, 68769), (68834, 68770), (68835, 68771), (68836, 68772), (68837, 68773), (68838, 68774), (68839, 68775),
   (68840, 68776), (68841, 68777), (68842, 68778), (68843, 68779), (68844, 68780), (68845, 68781), (68846, 68782),
   (68847, 68783), (68848, 68784), (68849, 68785), (68850, 68786), (71872, 71840), (71873, 71841), (71874, 71842),
   (71875, 71843), (71876, 71844), (71877, 71845), (71878, 71846), (71879, 71847), (71880, 71848), (71881, 71849),
   (71882, 71850), (71883, 71851), (71884, 71852), (71885, 71853), (71886, 71854), (71887, 71855), (71888, 71856),
   (71889, 71857), (71890, 71858), (71891, 71859), (71892, 71860), (71893, 71861), (71894, 71862), (71895, 71863),
   (71896, 71864), (71897, 71865), (71898, 71866), (71899, 71867), (71900, 71868), (71901, 71869), (71902, 71870),
   (71903, 71871), (93792, 93760), (93793, 93761), (93794, 93762), (93795, 93763), (93796, 93764), (93797, 93765),
   (93798, 93766), (93799, 93767), (93800, 93768), (93801, 93769), (93802, 93770), (93803, 93771), (93804, 93772),
   (93805, 93773), (93806, 93774), (93807, 93775), (93808, 93776), (93809, 93777), (93810, 93778), (93811, 93779),
   (93812, 93780), (93813, 93781), (93814, 93782), (93815, 93783), (93816, 93784), (93817, 93785), (93818, 93786),
   (93819, 93787), (93820, 93788), (93821, 93789), (93822, 93790), (93823, 93791), (125218, 125184), (125219, 125185),
   (125220, 125186), (125221, 125187), (125222, 125188), (125223, 125189), (125224, 125190), (125225, 125191), (125226, 125192),
   (125227, 125193), (125228, 125194), (125229, 125195), (125230, 125196), (125231, 125197), (125232, 125198), (125233, 125199),
   (125234, 125200), (125235, 125201), (125236, 125202), (125237, 125203), (125238, 125204), (125239, 125205), (125240, 125206),
   (125241, 125207), (125242, 125208), (125243, 125209), (125244, 125210), (125245, 125211), (125246, 125212), (125247, 125213),
   (125248, 125214), (125249, 125215), (125250, 125216), (125251, 125217)]

/-- Go `unicode.ToUpper` on one rune: the ASCII fast path, then the
simple (single-rune, locale-free) Unicode uppercase mapping. -/
def goToUpperChar (c : Char) : Char :=
  if c.toNat < 0x80 then
    (if 'a' ≤ c ∧ c ≤ 'z' then Char.ofNat (c.toNat - 32) else c)
  else
    match List.lookup c.toNat goUpperTable with
    | some u => Char.ofNat u
    | none => c

/-- Go `strings.ToUpper`: `unicode.ToUpper` mapped over the runes. -/
def goToUpper (s : String) : String := String.mk (s.toList.map goToUpperChar)

/-- Source `isExplain`: `strings.HasPrefix(strings.ToUpper(strings.TrimSpace(sql)), "EXPLAIN")`,
with the prefix test on the code-point list. -/
def isExplain (sql : String) : Bool :=
  "EXPLAIN".toList.isPrefixOf (goToUpper (trimSpace sql)).toList

/-- The `fmt.Sprintf("SELECT * FROM (%s) AS _q LIMIT %d", sql, e.maxRows)`
wrapper. -/
def wrapSQL (maxRows : Int) (sql : String) : String :=
  "SELECT * FROM (" ++ sql ++ ") AS _q LIMIT " ++ toString maxRows

/-- The SQL text `Executor.Execute` submits: EXPLAIN statements verbatim,
everything else wrapped with the row cap. -/
def submittedSQL (maxRows : Int) (sql : String) : String :=
  if isExplain sql then sql else wrapSQL maxRows sql

/-- Source `Executor.Execute`, restricted to its row-producing core: the
transaction envelope and timeouts are connection management; the rows the
caller sees are the database's response to the submitted SQL, collected by
`rowsToMaps`. -/
def executorExecute (db : String → Except String (List Row)) (maxRows : Int)
    (sql : String) : Except String (List Row) :=
  db (submittedSQL maxRows sql)

/-- The LIMIT contract of the external database: a query of the exact
wrapped shape returns at most the stated number of rows.  (PostgreSQL
semantics of the outer `LIMIT` clause, modelled from the spec.) -/
def dbHonorsLimit (db : String → Except String (List Row)) : Prop :=
  ∀ (inner : String) (n : Int) (rows : List Row),
    0 < n → db (wrapSQL n inner) = Except.ok rows → (rows.length : Int) ≤ n

/-! ## Query service (`QueryService.Execute`)

The row-relevant orchestration: validate (reject without executing),
execute, then mask the successful result in place with `MaskRows` keyed by
the service's bare-column mask map.  Telemetry and audit recording do not
touch the rows and are omitted.  The validator and executor are the
injected ports. -/

def queryServiceExecute (validator : String → Option ValError)
    (executor : String → Except String (List Row))
    (masks : List (String × String)) (sql : String) :
    Except (ValError ⊕ String) (List Row) :=
  match validator sql with
  | some e => Except.error (Sum.inl e)
  | none =>
    match executor sql with
    | Except.error e => Except.error (Sum.inr e)
    | Except.ok results => Except.ok (MaskRows results masks)

/-! ## Policy document and loader validation (`internal/adapter/policy`)

The YAML-decoded policy: fully-qualified table keys map to a description
plus per-column contexts (description and optional mask).  Go maps become
association lists; the loader's `seen` map (bare column name → mask and
first table of origin) is threaded explicitly, new bindings consed in
front (latest binding wins on lookup, as a Go map write). -/

structure ColumnContext where
  description : String
  mask : String
deriving DecidableEq, Repr

structure TableContext where
  description : String
  columns : List (String × ColumnContext)
deriving DecidableEq, Repr

abbrev PolicyDoc : Type := List (String × TableContext)

/-- The faults `loader.go`'s `validate` reports (structured stand-ins for
its formatted error strings). -/
inductive PolicyError where
  | emptyTableKey : PolicyError
  | emptyColumnKey : String → PolicyError
  | invalidMask : String → String → String → PolicyError
  | conflictingMasks : String → String → String → String → String → PolicyError
deriving DecidableEq, Repr

/-- `seen`: bare column name ↦ (mask, table of origin). -/
abbrev SeenMasks : Type := List (String × String × String)

/-- The column loop of `validate`: empty keys and unrecognised masks are
faults; a non-empty mask conflicting with a previously seen mask for the
same bare column name is a fault; otherwise the binding is recorded. -/
def validateColumns (key : String) (cols : List (String × ColumnContext))
    (seen : SeenMasks) : Except PolicyError SeenMasks :=
  match cols with
  | [] => Except.ok seen
  | (col, cc) :: rest =>
    if col = "" then Except.error (PolicyError.emptyColumnKey key)
    else if ¬ maskTypeValid cc.mask then
      Except.error (PolicyError.invalidMask key col cc.mask)
    else if cc.mask = "" then validateColumns key rest seen
    else
      match List.lookup col seen with
      | some prev =>
        if prev.1 ≠ cc.mask then
          Except.error (PolicyError.conflictingMasks col prev.1 prev.2 cc.mask key)
        else validateColumns key rest ((col, cc.mask, key) :: seen)
      | none => validateColumns key rest ((col, cc.mask, key) :: seen)

/-- The table loop of `validate`. -/
def validateTables (tables : PolicyDoc) (seen : SeenMasks) : Option PolicyError :=
  match tables with
  | [] => none
  | (key, tc) :: rest =>
    if key = "" then some PolicyError.emptyTableKey
    else
      match validateColumns key tc.columns seen with
      | Except.error e => some e
      | Except.ok seen' => validateTables rest seen'

/-- Source `validate` (`loader.go`): `LoadFromFile` publishes the parsed
policy iff this returns no fault. -/
def validatePolicy (tables : PolicyDoc) : Option PolicyError :=
  validateTables tables []

/-! ## Explorer records and the policy merge (`merge.go`)

The result records of `internal/core/port/explorer.go`.  Float-typed
statistics fields are carried opaquely as `ℚ` and timestamps as `Int`:
the merge never reads them, and the frame theorems only compare them. -/

inductive CardinalityClass where
  | unique : CardinalityClass
  | nearUnique : CardinalityClass
  | highCardinality : CardinalityClass
  | lowCardinality : CardinalityClass
  | enumLike : CardinalityClass
deriving DecidableEq, Repr

structure ColumnStats where
  nullFraction : ℚ
  cardinality : CardinalityClass
  distinctCount : Int
  mostCommonVals : List String
  mostCommonFreqs : List ℚ
  minValue : String
  maxValue : String
deriving DecidableEq, Repr

structure ColumnInfo where
  name : String
  dataType : String
  isNullable : Bool
  defaultValue : String
  isPrimaryKey : Bool
  comment : String
  stats : Option ColumnStats
deriving DecidableEq, Repr

structure ForeignKey where
  constraintName : String
  columnName : String
  referencedTable : String
  referencedColumn : String
deriving DecidableEq, Repr

structure CheckConstraint where
  name : String
  expression : String
deriving DecidableEq, Repr

structure IndexInfo where
  name : String
  definition : String
  isUnique : Bool
deriving DecidableEq, Repr

structure TableDetail where
  schema : String
  name : String
  comment : String
  rowEstimate : Int
  totalBytes : Int
  sizeHuman : String
  columns : List ColumnInfo
  foreignKeys : List ForeignKey
  indexes : List IndexInfo
  checkConstraints : List CheckConstraint
  statsAge : Option Int
deriving DecidableEq, Repr

structure TableInfo where
  schema : String
  name : String
  typ : String
  rowEstimate : Int
  totalBytes : Int
  sizeHuman : String
  columnCount : Int
  hasIndexes : Bool
  comment : String
deriving DecidableEq, Repr

/-- The per-column body of the `MergeTableDetail` loop: fill the column
comment from the policy only when it is empty and the description is
non-empty. -/
def mergeColumn (tc : TableContext) (col : ColumnInfo) : ColumnInfo :=
  match List.lookup col.name tc.columns with
  | some cc =>
    if col.comment = "" ∧ cc.description ≠ "" then { col with comment := cc.description }
    else col
  | none => col

/-- Source `MergeTableDetail`: fill the table comment from the policy
description only when the database comment is empty and the description is
non-empty; likewise per column.  (The Go function mutates through a
pointer; modelled functionally.) -/
def mergeTableDetail (detail : TableDetail) (tables : List (String × TableContext)) :
    TableDetail :=
  match List.lookup (detail.schema ++ "." ++ detail.name) tables with
  | none => detail
  | some tc =>
    let d :=
      if detail.comment = "" ∧ tc.description ≠ "" then
        { detail with comment := tc.description }
      else detail
    { d with columns := d.columns.map (mergeColumn tc) }

/-- The per-entry body of the `MergeTableInfoList` loop. -/
def mergeInfo (ctx : List (String × TableContext)) (t : TableInfo) : TableInfo :=
  match List.lookup (t.schema ++ "." ++ t.name) ctx with
  | some tc =>
    if t.comment = "" ∧ tc.description ≠ "" then { t with comment := tc.description }
    else t
  | none => t

/-- Source `MergeTableInfoList`: the same precedence rule on the
list-tables path. -/
def mergeTableInfoList (tables : List TableInfo) (ctx : List (String × TableContext)) :
    List TableInfo :=
  tables.map (mergeInfo ctx)

/-! ## IEEE-754 binary64 rounding and the cardinality classifier
(`internal/core/domain/cardinality.go`)

`ClassifyByDistinctCount` computes `float64(distinctCount) /
float64(totalRows) >= 0.9` in Go.  The two conversions, the division and
the literal `0.9` all round to the nearest binary64 value, ties to even.
A binary64 value is represented exactly as a dyadic `F64` pair: the value
is `m * 2^(e - 52)` where `e` is the binary exponent of the value and `m`
its 53-bit significand (`2^52 ≤ |m| < 2^53` for non-zero values); every
quantity reachable from `int64` arguments stays normal, far from overflow
and subnormals, so the unbounded exponent is faithful.  All arithmetic is
integer arithmetic. -/

/-- Number of binary digits of `n` (0 for 0), by fuel; the fuel bound 1100
covers every quantity in this development. -/
def bitlenAux : Nat → Nat → Nat
  | 0, _ => 0
  | fuel + 1, n => if n = 0 then 0 else bitlenAux fuel (n / 2) + 1

def bitlen (n : Nat) : Nat := bitlenAux 1100 n

/-- An exact binary64 value: significand `m` at binary exponent `e`, the
value being `m * 2^(e - 52)`. -/
structure F64 where
  m : Int
  e : Int
deriving DecidableEq, Repr

/-- Round the non-negative rational `a / b` (with `a ≥ 0`, `b > 0`) to 53
significant bits, round to nearest, ties to even.  The significand is the
half-even integer rounding of `(a / b) * 2^(52 - e)` at the binary
exponent `e = ⌊log₂ (a/b)⌋`. -/
def roundPosRat (a b : Nat) : F64 :=
  if a = 0 then ⟨0, 0⟩
  else
    let e0 : Int := (bitlen a : Int) - (bitlen b : Int)
    let e : Int :=
      if 0 ≤ e0 then (if b * 2 ^ e0.toNat ≤ a then e0 else e0 - 1)
      else (if b ≤ a * 2 ^ (-e0).toNat then e0 else e0 - 1)
    let s : Int := 52 - e
    let num : Nat := if 0 ≤ s then a * 2 ^ s.toNat else a
    let den : Nat := if 0 ≤ s then b else b * 2 ^ (-s).toNat
    let q : Nat := num / den
    let r : Nat := num % den
    let m : Nat :=
      if 2 * r < den then q
      else if den < 2 * r then q + 1
      else if q % 2 = 0 then q else q + 1
    ⟨(m : Int), e⟩

/-- Round the rational `a / b` (any sign on `a`, `b > 0`) to binary64. -/
def roundRat (a : Int) (b : Nat) : F64 :=
  if a < 0 then
    let f := roundPosRat a.natAbs b
    ⟨-f.m, f.e⟩
  else roundPosRat a.natAbs b

/-- Go `float64(n)` on an `int64`. -/
def intToF64 (n : Int) : F64 := roundRat n 1

/-- Binary64 division `x / y` for `y > 0` (the only case the classifier
reaches: the divisor comes from `totalRows > 0`): the exact quotient of
the two dyadic values is rounded again. -/
def f64Div (x y : F64) : F64 :=
  let d : Int := x.e - y.e
  let a : Int := if 0 ≤ d then x.m * 2 ^ d.toNat else x.m
  let b : Nat := if 0 ≤ d then y.m.natAbs else y.m.natAbs * 2 ^ (-d).toNat
  roundRat a b

/-- Binary64 comparison `x ≤ y`, by aligning the exponents. -/
def f64Le (x y : F64) : Bool :=
  if x.e ≤ y.e then x.m ≤ y.m * 2 ^ (y.e - x.e).toNat
  else x.m * 2 ^ (x.e - y.e).toNat ≤ y.m

/-- The binary64 value of the Go literal `0.9`. -/
def float09 : F64 := roundRat 9 10

/-- Source `ClassifyByDistinctCount`: the two guarded early returns, then
the absolute-count thresholds.  The second guard is the nested source test
`if totalRows > 0 { ratio := float64(d)/float64(r); if ratio >= 0.9 }`,
written as a conjunction. -/
def ClassifyByDistinctCount (distinctCount totalRows : Int) : CardinalityClass :=
  if 0 < totalRows ∧ distinctCount = totalRows then CardinalityClass.unique
  else if 0 < totalRows ∧
      f64Le float09 (f64Div (intToF64 distinctCount) (intToF64 totalRows)) then
    CardinalityClass.nearUnique
  else if distinctCount ≤ 20 then CardinalityClass.enumLike
  else if distinctCount ≤ 200 then CardinalityClass.lowCardinality
  else CardinalityClass.highCardinality

/-- The decision table of the spec, read literally: the ratio `d/r ≥ 0.9` is
exact rational arithmetic. -/
def cardinalitySpecTable (d r : Int) : CardinalityClass :=
  if d = r ∧ 0 < r then CardinalityClass.unique
  else if 0 < r ∧ (9 : ℚ) / 10 ≤ (d : ℚ) / (r : ℚ) then CardinalityClass.nearUnique
  else if d ≤ 20 then CardinalityClass.enumLike
  else if d ≤ 200 then CardinalityClass.lowCardinality
  else CardinalityClass.highCardinality

/-- The decision table of the spec with the ratio comparison carried out in
binary64, as the source does. -/
def cardinalitySpecTableF (d r : Int) : CardinalityClass :=
  if d = r ∧ 0 < r then CardinalityClass.unique
  else if 0 < r ∧ f64Le float09 (f64Div (intToF64 d) (intToF64 r)) then
    CardinalityClass.nearUnique
  else if d ≤ 20 then CardinalityClass.enumLike
  else if d ≤ 200 then CardinalityClass.lowCardinality
  else CardinalityClass.highCardinality

/-! ## Concrete instances

Stand-ins for the external collaborators at concrete inputs (the parser
and the database are functions in this embedding, so a counterexample or
witness fixes one), plus the loader fault predicates read off the spec. -/

/-- A parser assignment for `EXPLAIN DELETE FROM t`: a single top-level
`ExplainStmt` whose inner statement is a DeleteStmt (what `pg_query`
produces for that input). -/
def parseExplainDelete : String → Except String ParseTree := fun s =>
  if s = "EXPLAIN DELETE FROM t" then
    Except.ok [some (Stmt.explainStmt (some (Stmt.otherStmt "DeleteStmt")))]
  else Except.error "syntax error"

/-- A parser assignment for `EXPLAIN SELECT 1`: a single top-level
`ExplainStmt` over a `SelectStmt`. -/
def parseExplainSelectOne : String → Except String ParseTree := fun s =>
  if s = "EXPLAIN SELECT 1" then
    Except.ok [some (Stmt.explainStmt (some Stmt.selectStmt))]
  else Except.error "syntax error"

/-- A parser assignment covering the classification scenarios of the
validator contract. -/
def parseStub : String → Except String ParseTree := fun s =>
  if s = "SELECT 1" then Except.ok [some Stmt.selectStmt]
  else if s = "DROP TABLE users" then Except.ok [some (Stmt.otherStmt "DropStmt")]
  else if s = "SELECT 1; SELECT 2" then
    Except.ok [some Stmt.selectStmt, some Stmt.selectStmt]
  else Except.error "syntax error at or near NOT"

/-- A parser assignment for the aliased select of scenario S6. -/
def parseAliasSelect : String → Except String ParseTree := fun s =>
  if s = "SELECT \"Email\" AS email FROM t" then Except.ok [some Stmt.selectStmt]
  else Except.error "syntax error"

/-- An executor whose (successful) result row carries the aliased field
name `email`, as the field descriptions of the connection would after
`SELECT "Email" AS email`. -/
def executorAlias : String → Except String (List Row) := fun _ =>
  Except.ok [[("email", Value.str "alice@example.com")]]

def planRowOne : Row := [("QUERY PLAN", Value.str "Result  (cost=0.00..0.01 rows=1 width=4)")]

def planRowTwo : Row := [("QUERY PLAN", Value.str "Planning Time: 0.010 ms")]

/-- A database assignment that honours the LIMIT contract (it returns no
rows for wrapped queries) and answers `EXPLAIN SELECT 1` with a
two-line plan, as PostgreSQL does. -/
def dbStub : String → Except String (List Row) := fun s =>
  if s = "EXPLAIN SELECT 1" then Except.ok [planRowOne, planRowTwo]
  else Except.ok []

/-- The database assignment with no rows at all. -/
def dbEmpty : String → Except String (List Row) := fun _ => Except.ok []

/-- The structural half of the loader faults: no empty table key, no
empty column key, every mask in the closed enumeration. -/
def structOk (tables : PolicyDoc) : Prop :=
  ∀ p ∈ tables, p.1 ≠ "" ∧ ∀ q ∈ p.2.columns, q.1 ≠ "" ∧ maskTypeValid q.2.mask = true

/-- The non-`None` mask assignments of a table: (column, mask, table). -/
def colAssigns (k : String) (cols : List (String × ColumnContext)) :
    List (String × String × String) :=
  (cols.filter fun q => q.2.mask != "").map fun q => (q.1, q.2.mask, k)

/-- All non-`None` mask assignments of the document, in document order. -/
def maskAssignments (tables : PolicyDoc) : List (String × String × String) :=
  tables.flatMap fun p => colAssigns p.1 p.2.columns

/-- The conflict half of the loader faults: any two non-`None`
assignments to the same bare column name carry the same mask. -/
def noConflict (tables : PolicyDoc) : Prop :=
  ∀ a ∈ maskAssignments tables, ∀ b ∈ maskAssignments tables, a.1 = b.1 → a.2.1 = b.2.1

/-- Sequential compatibility of an assignment list with a `seen` map:
each assignment agrees with the binding its column already has, and is
then recorded — the order in which the loader loop meets them. -/
def compatible (seen : SeenMasks) : List (String × String × String) → Prop
  | [] => True
  | a :: rest =>
    (∀ m t, List.lookup a.1 seen = some (m, t) → m = a.2.1) ∧
    compatible (a :: seen) rest

/-- The conflicting document of the spec: `users.email: redact` together
with `orders.email: hash`. -/
def conflictDoc : PolicyDoc :=
  [("public.users", ⟨"", [("email", ⟨"", "redact"⟩)]⟩),
   ("public.orders", ⟨"", [("email", ⟨"", "hash"⟩)]⟩)]

/-- The same column name in two tables with the same mask. -/
def sameMaskDoc : PolicyDoc :=
  [("public.users", ⟨"", [("email", ⟨"", "redact"⟩)]⟩),
   ("public.orders", ⟨"", [("email", ⟨"", "redact"⟩)]⟩)]

/-- A table detail with a database-resident comment and one column. -/
def detailEx : TableDetail :=
  { schema := "public", name := "users", comment := "db comment", rowEstimate := 42,
    totalBytes := 8192, sizeHuman := "8 kB",
    columns := [{ name := "email", dataType := "text", isNullable := true,
                  defaultValue := "", isPrimaryKey := false, comment := "",
                  stats := none }],
    foreignKeys := [], indexes := [], checkConstraints := [], statsAge := none }

/-- A policy describing `public.users` and its `email` column. -/
def tablesEx : List (String × TableContext) :=
  [("public.users", ⟨"policy description", [("email", ⟨"policy email desc", "redact"⟩)]⟩)]

/-- Per-column contract of the merge: every field except the comment is
unchanged, a non-empty comment is never overwritten, and a changed
comment starts from an empty one and becomes non-empty. -/
def mergedColumnOk (a b : ColumnInfo) : Prop :=
  b.name = a.name ∧ b.dataType = a.dataType ∧ b.isNullable = a.isNullable ∧
  b.defaultValue = a.defaultValue ∧ b.isPrimaryKey = a.isPrimaryKey ∧
  b.stats = a.stats ∧ (a.comment ≠ "" → b.comment = a.comment) ∧
  (b.comment = a.comment ∨ (a.comment = "" ∧ b.comment ≠ ""))

/-- Per-entry contract of the list merge, same shape. -/
def mergedInfoOk (a b : TableInfo) : Prop :=
  b.schema = a.schema ∧ b.name = a.name ∧ b.typ = a.typ ∧
  b.rowEstimate = a.rowEstimate ∧ b.totalBytes = a.totalBytes ∧
  b.sizeHuman = a.sizeHuman ∧ b.columnCount = a.columnCount ∧
  b.hasIndexes = a.hasIndexes ∧ (a.comment ≠ "" → b.comment = a.comment) ∧
  (b.comment = a.comment ∨ (a.comment = "" ∧ b.comment ≠ ""))

/-! ## Theorems -/

theorem maskPartialChars (runes : List Char) :
    (runes.mapIdx fun i c => if i < runes.length - 4 then '*' else c) =
      List.replicate (runes.length - 4) '*' ++ runes.drop (runes.length - 4) := by
  apply List.ext_getElem
  · simp
  · intro i h1 h2
    rw [List.getElem_mapIdx]
    by_cases hc : i < runes.length - 4
    · rw [if_pos hc, List.getElem_append_left (by simpa using hc)]
      simp
    · rw [if_neg hc, List.getElem_append_right (by simpa using hc)]
      simp only [List.length_replicate]
      rw [List.getElem_drop]
      congr 1
      omega

theorem maskPartialFn_long (s : String) (h5 : 5 ≤ s.toList.length) :
    (maskPartialFn s).toList =
      List.replicate (s.toList.length - 4) '*' ++ s.toList.drop (s.toList.length - 4) := by
  have hne : ¬ s.toList.length ≤ 4 := by omega
  show (maskPartialFn s).data = _
  simp only [maskPartialFn]
  rw [if_neg hne]
  show (s.toList.mapIdx fun i c => if i < s.toList.length - 4 then '*' else c) = _
  exact maskPartialChars s.toList

theorem maskPartialFn_spec (s : String) :
    (5 ≤ s.toList.length →
      (maskPartialFn s).toList.length = s.toList.length ∧
      (maskPartialFn s).toList.drop (s.toList.length - 4) =
        s.toList.drop (s.toList.length - 4) ∧
      ∀ c ∈ (maskPartialFn s).toList.take (s.toList.length - 4), c = '*') ∧
    (s.toList.length ≤ 4 → maskPartialFn s = "***" ++ s) := by
  constructor
  · intro h5
    rw [maskPartialFn_long s h5]
    refine ⟨?_, ?_, ?_⟩
    · simp
    · exact List.drop_left' (by simp)
    · rw [List.take_left' (by simp)]
      intro c hc
      exact List.eq_of_mem_replicate hc
  · intro h4
    simp only [maskPartialFn]
    rw [if_pos h4]

/-- C10: `ApplyMask` preserves `nil` for every mask type — a `nil` (SQL
NULL) input returns `nil` under Redact, Hash, Partial, Null, None and any
unknown mask string alike, so a NULL is never hashed or partially rendered
and NULLs remain NULL in masked output. -/
theorem applyMask_null_preserved : ∀ m : String, applyMask Value.null m = Value.null := by
  intro m
  simp [applyMask]

/-- C7: for every non-nil value, `ApplyMask` with the Partial mask
string-renders the value; when the rendering has at least 5 code points
the result keeps the code-point length, its last 4 code points equal the
last 4 of the rendering and every preceding code point is `*`; when the
rendering has at most 4 code points the result is `***` followed by the
rendering.  Counting is by code points (`String.toList`), not bytes. -/
theorem applyMask_partial_unicode (v : Value) (hv : v ≠ Value.null) :
    applyMask v MaskPartialKind = Value.str (maskPartialFn (render v)) ∧
    (5 ≤ (render v).toList.length →
      (maskPartialFn (render v)).toList.length = (render v).toList.length ∧
      (maskPartialFn (render v)).toList.drop ((render v).toList.length - 4) =
        (render v).toList.drop ((render v).toList.length - 4) ∧
      ∀ c ∈ (maskPartialFn (render v)).toList.take ((render v).toList.length - 4),
        c = '*') ∧
    ((render v).toList.length ≤ 4 → maskPartialFn (render v) = "***" ++ render v) := by
  refine ⟨?_, (maskPartialFn_spec (render v)).1, (maskPartialFn_spec (render v)).2⟩
  simp [applyMask, hv, MaskRedact, MaskHash, MaskPartialKind]

/-- Witness for C7 at the concrete value `пароль42` (8 code points, 12
UTF-8 bytes): the hypothesis is non-nil, and the masked rendering keeps
the last 4 code points. -/
theorem applyMask_partial_unicode_witness :
    applyMask (Value.str "пароль42") MaskPartialKind =
      Value.str (maskPartialFn (render (Value.str "пароль42"))) ∧
    maskPartialFn "пароль42" = "****ль42" := by
  refine ⟨(applyMask_partial_unicode (Value.str "пароль42") (by decide)).1, ?_⟩
  decide

/-- C8 (counterexample): at `d = 8106479329266893`,
`r = 9007199254740993 = 2^53 + 1` the code computes
`float64(d) / float64(r)`, which rounds to exactly the binary64 value of
the literal `0.9` (the conversion of `r` loses its low bit), so the code
returns NearUnique; the exact decision table of the spec has
`d / r < 0.9` and `d > 200`, hence HighCard. -/
theorem classify_float_divergence :
    ClassifyByDistinctCount 8106479329266893 9007199254740993 =
      CardinalityClass.nearUnique ∧
    cardinalitySpecTable 8106479329266893 9007199254740993 =
      CardinalityClass.highCardinality ∧
    ClassifyByDistinctCount 8106479329266893 9007199254740993 ≠
      cardinalitySpecTable 8106479329266893 9007199254740993 := by
  have hA : ClassifyByDistinctCount 8106479329266893 9007199254740993 =
      CardinalityClass.nearUnique := by decide
  have h1 : ¬((8106479329266893 : Int) = 9007199254740993 ∧
      (0 : Int) < 9007199254740993) := by norm_num
  have h2 : ¬((0 : Int) < 9007199254740993 ∧
      (9 : ℚ) / 10 ≤ ((8106479329266893 : Int) : ℚ) / ((9007199254740993 : Int) : ℚ)) := by
    intro h
    have := h.2
    norm_num at this
  have h3 : ¬((8106479329266893 : Int) ≤ 20) := by norm_num
  have h4 : ¬((8106479329266893 : Int) ≤ 200) := by norm_num
  have hB : cardinalitySpecTable 8106479329266893 9007199254740993 =
      CardinalityClass.highCardinality := by
    simp only [cardinalitySpecTable, if_neg h1, if_neg h2, if_neg h3, if_neg h4]
  refine ⟨hA, hB, ?_⟩
  rw [hA, hB]
  decide

/-- C8 (amended): `ClassifyByDistinctCount` matches the decision table of
the spec evaluated in order, with the ratio comparison `d/r ≥ 0.9`
performed in binary64 arithmetic exactly as the source does (convert both
counts to `float64`, divide, compare with the rounded literal `0.9`). -/
theorem classify_matches_table_float :
    ∀ d r : Int, ClassifyByDistinctCount d r = cardinalitySpecTableF d r := by
  intro d r
  unfold ClassifyByDistinctCount cardinalitySpecTableF
  exact if_congr and_comm rfl rfl

/-- C1 (counterexample): `EXPLAIN DELETE FROM t` parses to a single
top-level `ExplainStmt` whose inner statement is a DeleteStmt, yet
`Validate` returns no error — the claimed rejection of ExplainStmt with a
non-SELECT inner statement is not implemented. -/
theorem validate_explain_delete_accepted :
    parseExplainDelete "EXPLAIN DELETE FROM t" =
      Except.ok [some (Stmt.explainStmt (some (Stmt.otherStmt "DeleteStmt")))] ∧
    Validate parseExplainDelete "EXPLAIN DELETE FROM t" = none := by
  constructor
  · rfl
  · rfl

/-- C1 (amended): `Validate` admits every SQL string that parses to a
single top-level `ExplainStmt`, regardless of the inner statement — the
whitelist applies to the top-level statement kind only. -/
theorem validate_accepts_explain_any_inner
    (parse : String → Except String ParseTree) (sql : String) (inner : Option Stmt)
    (hne : trimSpace sql ≠ "")
    (hp : parse (trimSpace sql) = Except.ok [some (Stmt.explainStmt inner)]) :
    Validate parse sql = none := by
  simp only [Validate]
  rw [if_neg hne, hp]
  rfl

/-- Witness for the amended C1 at the concrete `EXPLAIN DELETE FROM t`. -/
theorem validate_accepts_explain_any_inner_witness :
    Validate parseExplainDelete "EXPLAIN DELETE FROM t" = none :=
  validate_accepts_explain_any_inner parseExplainDelete "EXPLAIN DELETE FROM t"
    (some (Stmt.otherStmt "DeleteStmt")) (by decide) (by rfl)

/-- C6: `Validate` classifies every input as the algorithm of the spec
dictates — a whitespace-only string gives ErrEmpty; a parser rejection
gives ErrParseFailed wrapping the diagnostic; an empty parse tree gives
ErrEmpty; more than one statement gives ErrMultiStatement; a single
statement that is neither SelectStmt nor ExplainStmt gives ErrNotAllowed;
and a single top-level SelectStmt is admitted. -/
theorem validate_classification (parse : String → Except String ParseTree) (sql : String) :
    (sql.data.all goIsSpace = true → Validate parse sql = some ValError.errEmptyQuery) ∧
    (∀ e, trimSpace sql ≠ "" → parse (trimSpace sql) = Except.error e →
      Validate parse sql = some (ValError.errParseFailed e)) ∧
    (trimSpace sql ≠ "" → parse (trimSpace sql) = Except.ok [] →
      Validate parse sql = some ValError.errEmptyQuery) ∧
    (∀ stmts, trimSpace sql ≠ "" → parse (trimSpace sql) = Except.ok stmts →
      1 < stmts.length → Validate parse sql = some ValError.errMultiStatement) ∧
    (∀ tag, trimSpace sql ≠ "" →
      parse (trimSpace sql) = Except.ok [some (Stmt.otherStmt tag)] →
      Validate parse sql = some ValError.errNotAllowed) ∧
    (trimSpace sql ≠ "" → parse (trimSpace sql) = Except.ok [some Stmt.selectStmt] →
      Validate parse sql = none) := by
  refine ⟨?_, ?_, ?_, ?_, ?_, ?_⟩
  · intro hall
    have htrim : trimSpace sql = "" := by
      simp only [trimSpace]
      have h1 : sql.toList.dropWhile goIsSpace = [] :=
        List.dropWhile_eq_nil_iff.mpr (fun x hx => List.all_eq_true.mp hall x hx)
      rw [h1]
      rfl
    simp only [Validate]
    rw [if_pos htrim]
  · intro e hne hp
    simp only [Validate]
    rw [if_neg hne, hp]
  · intro hne hp
    simp only [Validate]
    rw [if_neg hne, hp]
    rfl
  · intro stmts hne hp hlen
    simp only [Validate]
    rw [if_neg hne, hp]
    rcases stmts with _ | ⟨a, _ | ⟨b, rest⟩⟩
    · simp at hlen
    · simp at hlen
    · simp
  · intro tag hne hp
    simp only [Validate]
    rw [if_neg hne, hp]
    rfl
  · intro hne hp
    simp only [Validate]
    rw [if_neg hne, hp]
    rfl

/-- Witness for C6: each scenario of the classification at a concrete
parser assignment and input. -/
theorem validate_classification_witness :
    Validate parseStub "   " = some ValError.errEmptyQuery ∧
    Validate parseStub "NOT SQL" =
      some (ValError.errParseFailed "syntax error at or near NOT") ∧
    Validate parseStub "SELECT 1; SELECT 2" = some ValError.errMultiStatement ∧
    Validate parseStub "DROP TABLE users" = some ValError.errNotAllowed ∧
    Validate parseStub "SELECT 1" = none := by
  refine ⟨(validate_classification parseStub "   ").1 (by decide),
    (validate_classification parseStub "NOT SQL").2.1 _ (by decide) (by rfl),
    (validate_classification parseStub "SELECT 1; SELECT 2").2.2.2.1 _ (by decide)
      (by rfl) (by decide),
    (validate_classification parseStub "DROP TABLE users").2.2.2.2.1 _ (by decide)
      (by rfl),
    (validate_classification parseStub "SELECT 1").2.2.2.2.2 (by decide) (by rfl)⟩

/-- C4 (counterexample): a document whose only table key is `users` —
non-empty and without a `.` separator — passes loader validation: the
claimed schema.table shape check is absent. -/
theorem policy_dotless_key_accepted :
    ("users" : String) ≠ "" ∧ '.' ∉ "users".toList ∧
    validatePolicy
      [("users", ⟨"Registered users", [("email", ⟨"Email address", "redact"⟩)]⟩)] =
      none := by
  refine ⟨by decide, by decide, by rfl⟩

theorem validateTables_fails_of_empty_key (tables : PolicyDoc) (tc : TableContext)
    (hmem : ("", tc) ∈ tables) : ∀ seen, validateTables tables seen ≠ none := by
  induction tables with
  | nil => cases hmem
  | cons p rest ih =>
    intro seen
    simp only [validateTables]
    by_cases hk : p.1 = ""
    · rw [if_pos hk]
      simp
    · rw [if_neg hk]
      cases hvc : validateColumns p.1 p.2.columns seen with
      | error e => simp
      | ok seen' =>
        have hrest : ("", tc) ∈ rest := by
          rcases List.mem_cons.mp hmem with heq | hr
          · exact absurd (congrArg Prod.fst heq.symm) hk
          · exact hr
        exact ih hrest seen'

/-- C4 (amended): policy loading fails for every document containing an
empty table key; a non-empty table key without a `.` separator is NOT
rejected — the loader checks only for emptiness. -/
theorem validatePolicy_empty_key_fails (tables : PolicyDoc) (tc : TableContext)
    (hmem : ("", tc) ∈ tables) : validatePolicy tables ≠ none :=
  validateTables_fails_of_empty_key tables tc hmem []

/-- Witness for the amended C4 at a one-table document with empty key. -/
theorem validatePolicy_empty_key_fails_witness :
    validatePolicy [("", ⟨"bad", []⟩)] ≠ none :=
  validatePolicy_empty_key_fails _ ⟨"bad", []⟩ (by simp)

theorem wrapSQL_ne_explainSelectOne (n : Int) (inner : String) :
    wrapSQL n inner ≠ "EXPLAIN SELECT 1" := by
  intro h
  have h1 : (wrapSQL n inner).data.head? = some 'S' := rfl
  rw [h] at h1
  exact absurd h1 (by decide)

/-- C3 (counterexample): against a database that honours the LIMIT
contract, the validated statement `EXPLAIN SELECT 1` with row cap 1 is
submitted verbatim and its two-line plan comes back uncapped — the
executor does not return at most N rows for every validated statement. -/
theorem executor_explain_uncapped :
    dbHonorsLimit dbStub ∧
    Validate parseExplainSelectOne "EXPLAIN SELECT 1" = none ∧
    executorExecute dbStub 1 "EXPLAIN SELECT 1" = Except.ok [planRowOne, planRowTwo] ∧
    ¬((2 : Int) ≤ 1) ∧ (([planRowOne, planRowTwo] : List Row).length : Int) = 2 := by
  refine ⟨?_, by rfl, by rfl, by decide, by rfl⟩
  intro inner n rows hn h
  have hdb : dbStub (wrapSQL n inner) = Except.ok [] := by
    simp only [dbStub]
    rw [if_neg (wrapSQL_ne_explainSelectOne n inner)]
  rw [hdb] at h
  injection h with h2
  rw [← h2]
  simpa using hn.le

/-- C3 (amended): an input whose trimmed uppercased form starts with
`EXPLAIN` is submitted verbatim; every other input is submitted as exactly
`SELECT * FROM (<sql>) AS _q LIMIT <max_rows>`, and for non-EXPLAIN
statements a database honouring the LIMIT contract returns at most
`max_rows` rows.  EXPLAIN output is not capped. -/
theorem executor_wrap_and_cap :
    (∀ (maxRows : Int) (sql : String), isExplain sql = true →
      submittedSQL maxRows sql = sql) ∧
    (∀ (maxRows : Int) (sql : String), isExplain sql = false →
      submittedSQL maxRows sql =
        "SELECT * FROM (" ++ sql ++ ") AS _q LIMIT " ++ toString maxRows) ∧
    (∀ (db : String → Except String (List Row)) (maxRows : Int) (sql : String)
      (rows : List Row), dbHonorsLimit db → 0 < maxRows → isExplain sql = false →
      executorExecute db maxRows sql = Except.ok rows →
      (rows.length : Int) ≤ maxRows) := by
  refine ⟨?_, ?_, ?_⟩
  · intro m s h
    simp [submittedSQL, h]
  · intro m s h
    simp [submittedSQL, wrapSQL, h]
  · intro db m s rows hdb hm hex h
    have heq : executorExecute db m s = db (wrapSQL m s) := by
      simp [executorExecute, submittedSQL, hex]
    rw [heq] at h
    exact hdb s m rows hm h

/-- Witness for the amended C3: the wrapped shape at a concrete query,
the verbatim path at a non-ASCII EXPLAIN spelling (dotless ı uppercases
to I under the Unicode simple mapping of `strings.ToUpper`), and the cap
at a concrete database. -/
theorem executor_wrap_and_cap_witness :
    submittedSQL 100 "SELECT * FROM users" =
      "SELECT * FROM (SELECT * FROM users) AS _q LIMIT 100" ∧
    submittedSQL 5 "explaın select 1" = "explaın select 1" ∧
    (([] : List Row).length : Int) ≤ 1 := by
  refine ⟨?_, executor_wrap_and_cap.1 5 "explaın select 1" (by decide), ?_⟩
  · rw [executor_wrap_and_cap.2.1 100 "SELECT * FROM users" (by decide)]
    rfl
  · exact executor_wrap_and_cap.2.2 dbEmpty 1 "SELECT 1" []
      (by
        intro inner n rows hn h
        injection h with h2
        rw [← h2]
        simpa using hn.le)
      (by norm_num) (by decide) (by rfl)

/-- C2 (counterexample): the validated query `SELECT "Email" AS email
FROM t` with a Redact mask on `Email` returns its `email` field unmasked
from `QueryService.Execute` — the service applies `MaskRows` without the
alias map, although the alias-aware `MaskRowsWithAliases` (last conjunct)
would have masked it. -/
theorem service_alias_not_masked :
    Validate parseAliasSelect "SELECT \"Email\" AS email FROM t" = none ∧
    queryServiceExecute (Validate parseAliasSelect) executorAlias
      [("Email", MaskRedact)] "SELECT \"Email\" AS email FROM t" =
      Except.ok [[("email", Value.str "alice@example.com")]] ∧
    Value.str "alice@example.com" ≠ Value.str "***" ∧
    MaskRowsWithAliases [[("email", Value.str "alice@example.com")]]
      [("Email", MaskRedact)] [("Email", "email")] =
      [[("email", Value.str "***")]] := by
  refine ⟨by rfl, by rfl, by decide, by rfl⟩

/-- C2 (amended): after a successful execution the query service masks
rows by exact column name only — the returned rows are
`MaskRows(executorRows, masks)`; no alias map is extracted or applied, so
a masked column aliased to a new name is returned unmasked. -/
theorem service_masks_exact_names
    (validator : String → Option ValError) (executor : String → Except String (List Row))
    (masks : List (String × String)) (sql : String) (rows : List Row)
    (hval : validator sql = none) (hexec : executor sql = Except.ok rows) :
    queryServiceExecute validator executor masks sql =
      Except.ok (MaskRows rows masks) := by
  simp only [queryServiceExecute]
  rw [hval, hexec]

/-- Witness for the amended C2 at the aliased query of scenario S6. -/
theorem service_masks_exact_names_witness :
    queryServiceExecute (Validate parseAliasSelect) executorAlias
      [("Email", MaskRedact)] "SELECT \"Email\" AS email FROM t" =
      Except.ok (MaskRows [[("email", Value.str "alice@example.com")]]
        [("Email", MaskRedact)]) :=
  service_masks_exact_names _ _ _ _ _ (by rfl) (by rfl)

theorem forall2_map_self {α : Type} (R : α → α → Prop) (f : α → α) (l : List α)
    (h : ∀ a ∈ l, R a (f a)) : List.Forall₂ R l (l.map f) := by
  induction l with
  | nil => exact List.Forall₂.nil
  | cons a t ih =>
    exact List.Forall₂.cons (h a (by simp)) (ih fun b hb => h b (by simp [hb]))

theorem mergeColumn_ok (tc : TableContext) (col : ColumnInfo) :
    mergedColumnOk col (mergeColumn tc col) := by
  cases hcc : List.lookup col.name tc.columns with
  | none =>
    have hm : mergeColumn tc col = col := by
      simp only [mergeColumn, hcc]
    rw [hm]
    exact ⟨rfl, rfl, rfl, rfl, rfl, rfl, fun _ => rfl, Or.inl rfl⟩
  | some cc =>
    by_cases hc : col.comment = "" ∧ cc.description ≠ ""
    · have hm : mergeColumn tc col = { col with comment := cc.description } := by
        simp only [mergeColumn, hcc, if_pos hc]
      rw [hm]
      exact ⟨rfl, rfl, rfl, rfl, rfl, rfl, fun h => absurd hc.1 h,
        Or.inr ⟨hc.1, hc.2⟩⟩
    · have hm : mergeColumn tc col = col := by
        simp only [mergeColumn, hcc, if_neg hc]
      rw [hm]
      exact ⟨rfl, rfl, rfl, rfl, rfl, rfl, fun _ => rfl, Or.inl rfl⟩

theorem mergeInfo_ok (ctx : List (String × TableContext)) (t : TableInfo) :
    mergedInfoOk t (mergeInfo ctx t) := by
  cases hl : List.lookup (t.schema ++ "." ++ t.name) ctx with
  | none =>
    have hm : mergeInfo ctx t = t := by
      simp only [mergeInfo, hl]
    rw [hm]
    exact ⟨rfl, rfl, rfl, rfl, rfl, rfl, rfl, rfl, fun _ => rfl, Or.inl rfl⟩
  | some tc =>
    by_cases hc : t.comment = "" ∧ tc.description ≠ ""
    · have hm : mergeInfo ctx t = { t with comment := tc.description } := by
        simp only [mergeInfo, hl, if_pos hc]
      rw [hm]
      exact ⟨rfl, rfl, rfl, rfl, rfl, rfl, rfl, rfl, fun h => absurd hc.1 h,
        Or.inr ⟨hc.1, hc.2⟩⟩
    · have hm : mergeInfo ctx t = t := by
        simp only [mergeInfo, hl, if_neg hc]
      rw [hm]
      exact ⟨rfl, rfl, rfl, rfl, rfl, rfl, rfl, rfl, fun _ => rfl, Or.inl rfl⟩

/-- C9: the policy merge writes a table or column comment only when the
existing comment is empty and the policy description is non-empty; a
non-empty database-resident comment is never overwritten; and every field
of the table detail and the table list other than the comment fields is
left unchanged (per-column and per-entry contracts `mergedColumnOk` and
`mergedInfoOk`). -/
theorem merge_policy_precedence (detail : TableDetail)
    (tables : List (String × TableContext)) (infos : List TableInfo) :
    ((mergeTableDetail detail tables).schema = detail.schema ∧
     (mergeTableDetail detail tables).name = detail.name ∧
     (mergeTableDetail detail tables).rowEstimate = detail.rowEstimate ∧
     (mergeTableDetail detail tables).totalBytes = detail.totalBytes ∧
     (mergeTableDetail detail tables).sizeHuman = detail.sizeHuman ∧
     (mergeTableDetail detail tables).foreignKeys = detail.foreignKeys ∧
     (mergeTableDetail detail tables).indexes = detail.indexes ∧
     (mergeTableDetail detail tables).checkConstraints = detail.checkConstraints ∧
     (mergeTableDetail detail tables).statsAge = detail.statsAge) ∧
    (detail.comment ≠ "" → (mergeTableDetail detail tables).comment = detail.comment) ∧
    ((mergeTableDetail detail tables).comment = detail.comment ∨
      (detail.comment = "" ∧
       ∃ tc, List.lookup (detail.schema ++ "." ++ detail.name) tables = some tc ∧
         tc.description ≠ "" ∧
         (mergeTableDetail detail tables).comment = tc.description)) ∧
    List.Forall₂ mergedColumnOk detail.columns (mergeTableDetail detail tables).columns ∧
    List.Forall₂ mergedInfoOk infos (mergeTableInfoList infos tables) := by
  have hinfo : List.Forall₂ mergedInfoOk infos (mergeTableInfoList infos tables) :=
    forall2_map_self mergedInfoOk (mergeInfo tables) infos
      (fun t _ => mergeInfo_ok tables t)
  cases hl : List.lookup (detail.schema ++ "." ++ detail.name) tables with
  | none =>
    have hm : mergeTableDetail detail tables = detail := by
      simp only [mergeTableDetail, hl]
    rw [hm]
    exact ⟨⟨rfl, rfl, rfl, rfl, rfl, rfl, rfl, rfl, rfl⟩, fun _ => rfl, Or.inl rfl,
      List.forall₂_same.mpr fun c _ =>
        ⟨rfl, rfl, rfl, rfl, rfl, rfl, fun _ => rfl, Or.inl rfl⟩, hinfo⟩
  | some tc =>
    by_cases hc : detail.comment = "" ∧ tc.description ≠ ""
    · have hm : mergeTableDetail detail tables =
          { detail with comment := tc.description,
                        columns := detail.columns.map (mergeColumn tc) } := by
        simp only [mergeTableDetail, hl, if_pos hc]
      rw [hm]
      exact ⟨⟨rfl, rfl, rfl, rfl, rfl, rfl, rfl, rfl, rfl⟩,
        fun h => absurd hc.1 h, Or.inr ⟨hc.1, tc, rfl, hc.2, rfl⟩,
        forall2_map_self mergedColumnOk (mergeColumn tc) detail.columns
          (fun c _ => mergeColumn_ok tc c), hinfo⟩
    · have hm : mergeTableDetail detail tables =
          { detail with columns := detail.columns.map (mergeColumn tc) } := by
        simp only [mergeTableDetail, hl, if_neg hc]
      rw [hm]
      exact ⟨⟨rfl, rfl, rfl, rfl, rfl, rfl, rfl, rfl, rfl⟩,
        fun _ => rfl, Or.inl rfl,
        forall2_map_self mergedColumnOk (mergeColumn tc) detail.columns
          (fun c _ => mergeColumn_ok tc c), hinfo⟩

/-- Witness for C9: with a database comment present and a policy
description present, the database comment survives the merge. -/
theorem merge_policy_precedence_witness :
    (mergeTableDetail detailEx tablesEx).comment = "db comment" :=
  (merge_policy_precedence detailEx tablesEx []).2.1 (by decide)

theorem validateColumns_ok_seen (cols : List (String × ColumnContext)) :
    ∀ (k : String) (seen s' : SeenMasks), validateColumns k cols seen = Except.ok s' →
      s' = (colAssigns k cols).reverse ++ seen := by
  induction cols with
  | nil =>
    intro k seen s' h
    simp only [validateColumns] at h
    injection h with h2
    simp [colAssigns, h2]
  | cons q rest ih =>
    obtain ⟨col, cc⟩ := q
    intro k seen s' h
    simp only [validateColumns] at h
    by_cases h1 : col = ""
    · simp only [if_pos h1] at h
      simp at h
    · simp only [if_neg h1] at h
      by_cases h2 : ¬ maskTypeValid cc.mask = true
      · simp only [if_pos h2] at h
        simp at h
      · simp only [if_neg h2] at h
        by_cases h3 : cc.mask = ""
        · simp only [if_pos h3] at h
          have hres := ih k seen s' h
          simpa [colAssigns, List.filter_cons, h3] using hres
        · simp only [if_neg h3] at h
          cases hlk : List.lookup col seen with
          | none =>
            simp only [hlk] at h
            have hres := ih k ((col, cc.mask, k) :: seen) s' h
            simp only [colAssigns, List.filter_cons] at hres ⊢
            simpa [h3] using hres
          | some prev =>
            simp only [hlk] at h
            by_cases h4 : prev.1 ≠ cc.mask
            · simp only [if_pos h4] at h
              simp at h
            · simp only [if_neg h4] at h
              have hres := ih k ((col, cc.mask, k) :: seen) s' h
              simp only [colAssigns, List.filter_cons] at hres ⊢
              simpa [h3] using hres

theorem validateColumns_ok_iff (cols : List (String × ColumnContext)) :
    ∀ (k : String) (seen : SeenMasks),
      (∃ s', validateColumns k cols seen = Except.ok s') ↔
        ((∀ q ∈ cols, q.1 ≠ "" ∧ maskTypeValid q.2.mask = true) ∧
          compatible seen (colAssigns k cols)) := by
  induction cols with
  | nil =>
    intro k seen
    simp [validateColumns, colAssigns, compatible]
  | cons q rest ih =>
    obtain ⟨col, cc⟩ := q
    intro k seen
    simp only [validateColumns]
    by_cases h1 : col = ""
    · simp only [if_pos h1]
      constructor
      · intro ⟨s', hs⟩
        simp at hs
      · intro ⟨hq, _⟩
        exact absurd h1 (hq (col, cc) (by simp)).1
    · simp only [if_neg h1]
      by_cases h2 : ¬ maskTypeValid cc.mask = true
      · simp only [if_pos h2]
        constructor
        · intro ⟨s', hs⟩
          simp at hs
        · intro ⟨hq, _⟩
          exact absurd (hq (col, cc) (by simp)).2 h2
      · simp only [if_neg h2]
        rw [not_not] at h2
        by_cases h3 : cc.mask = ""
        · simp only [if_pos h3]
          rw [ih k seen]
          constructor
          · intro ⟨hq, hcomp⟩
            refine ⟨?_, ?_⟩
            · intro p hp
              rcases List.mem_cons.mp hp with heq | hm
              · rw [heq]
                exact ⟨h1, h2⟩
              · exact hq p hm
            · simpa [colAssigns, List.filter_cons, h3] using hcomp
          · intro ⟨hq, hcomp⟩
            refine ⟨fun p hp => hq p (by simp [hp]), ?_⟩
            simpa [colAssigns, List.filter_cons, h3] using hcomp
        · simp only [if_neg h3]
          have hassign : colAssigns k ((col, cc) :: rest) =
              (col, cc.mask, k) :: colAssigns k rest := by
            simp [colAssigns, List.filter_cons, h3]
          cases hlk : List.lookup col seen with
          | none =>
            simp only [hlk]
            rw [ih k ((col, cc.mask, k) :: seen), hassign]
            constructor
            · intro ⟨hq, hcomp⟩
              refine ⟨?_, ?_, hcomp⟩
              · intro p hp
                rcases List.mem_cons.mp hp with heq | hm
                · rw [heq]
                  exact ⟨h1, h2⟩
                · exact hq p hm
              · intro m t hmt
                rw [hlk] at hmt
                cases hmt
            · intro ⟨hq, _, hcomp⟩
              exact ⟨fun p hp => hq p (by simp [hp]), hcomp⟩
          | some prev =>
            simp only [hlk]
            by_cases h4 : prev.1 ≠ cc.mask
            · simp only [if_pos h4]
              constructor
              · intro ⟨s', hs⟩
                simp at hs
              · intro ⟨hq, hcomp⟩
                rw [hassign] at hcomp
                exact absurd (hcomp.1 prev.1 prev.2 (by rw [hlk])) h4
            · simp only [if_neg h4]
              rw [not_not] at h4
              rw [ih k ((col, cc.mask, k) :: seen), hassign]
              constructor
              · intro ⟨hq, hcomp⟩
                refine ⟨?_, ?_, hcomp⟩
                · intro p hp
                  rcases List.mem_cons.mp hp with heq | hm
                  · rw [heq]
                    exact ⟨h1, h2⟩
                  · exact hq p hm
                · intro m t hmt
                  rw [hlk] at hmt
                  injection hmt with h5
                  have h6 : prev.1 = m := by rw [h5]
                  rw [← h6]
                  exact h4
              · intro ⟨hq, _, hcomp⟩
                exact ⟨fun p hp => hq p (by simp [hp]), hcomp⟩

theorem compatible_append (xs : List (String × String × String)) :
    ∀ (seen : SeenMasks) (ys : List (String × String × String)),
      compatible seen (xs ++ ys) ↔
        compatible seen xs ∧ compatible (xs.reverse ++ seen) ys := by
  induction xs with
  | nil =>
    intro seen ys
    simp [compatible]
  | cons a xs ih =>
    intro seen ys
    simp only [List.cons_append, compatible, List.append_eq]
    rw [ih (a :: seen) ys]
    simp [List.reverse_cons, List.append_assoc, and_assoc]

theorem validateTables_none_iff (tables : PolicyDoc) :
    ∀ seen, validateTables tables seen = none ↔
      ((∀ p ∈ tables, p.1 ≠ "" ∧
          ∀ q ∈ p.2.columns, q.1 ≠ "" ∧ maskTypeValid q.2.mask = true) ∧
        compatible seen (maskAssignments tables)) := by
  induction tables with
  | nil =>
    intro seen
    simp [validateTables, maskAssignments, compatible]
  | cons p rest ih =>
    obtain ⟨k, tc⟩ := p
    intro seen
    simp only [validateTables]
    have hasn : maskAssignments ((k, tc) :: rest) =
        colAssigns k tc.columns ++ maskAssignments rest := by
      simp [maskAssignments]
    by_cases h1 : k = ""
    · simp only [if_pos h1]
      constructor
      · intro h
        simp at h
      · intro ⟨hq, _⟩
        exact absurd h1 (hq (k, tc) (by simp)).1
    · simp only [if_neg h1]
      cases hvc : validateColumns k tc.columns seen with
      | error e =>
        simp only [hvc]
        constructor
        · intro h
          simp at h
        · intro ⟨hq, hcomp⟩
          have hok : ∃ s', validateColumns k tc.columns seen = Except.ok s' := by
            rw [validateColumns_ok_iff]
            refine ⟨fun q hq2 => ((hq (k, tc) (by simp)).2 q hq2), ?_⟩
            rw [hasn] at hcomp
            exact ((compatible_append _ seen _).mp hcomp).1
          rcases hok with ⟨s', hs⟩
          rw [hvc] at hs
          simp at hs
      | ok seen' =>
        simp only [hvc]
        rw [ih seen']
        have hseen' : seen' = (colAssigns k tc.columns).reverse ++ seen :=
          validateColumns_ok_seen _ k seen seen' hvc
        have hcolsOk : (∀ q ∈ tc.columns, q.1 ≠ "" ∧ maskTypeValid q.2.mask = true) ∧
            compatible seen (colAssigns k tc.columns) := by
          rw [← validateColumns_ok_iff]
          exact ⟨seen', hvc⟩
        rw [hasn, compatible_append]
        constructor
        · intro ⟨hq, hcomp⟩
          refine ⟨?_, hcolsOk.2, ?_⟩
          · intro p hp
            rcases List.mem_cons.mp hp with heq | hm
            · rw [heq]
              exact ⟨h1, hcolsOk.1⟩
            · exact hq p hm
          · rw [← hseen']
            exact hcomp
        · intro ⟨hq, _, hcomp⟩
          refine ⟨fun p hp => hq p (by simp [hp]), ?_⟩
          rw [hseen']
          exact hcomp

theorem compatible_iff_agree (asgns : List (String × String × String)) :
    ∀ seen : SeenMasks, compatible seen asgns ↔
      ((∀ a ∈ asgns, ∀ m t, List.lookup a.1 seen = some (m, t) → m = a.2.1) ∧
        (∀ a ∈ asgns, ∀ b ∈ asgns, a.1 = b.1 → a.2.1 = b.2.1)) := by
  induction asgns with
  | nil =>
    intro seen
    simp [compatible]
  | cons a rest ih =>
    obtain ⟨a1, a2, a3⟩ := a
    intro seen
    simp only [compatible]
    rw [ih ((a1, a2, a3) :: seen)]
    constructor
    · rintro ⟨hhd, hrest, hpair⟩
      have hagree : ∀ b ∈ rest, b.1 = a1 → a2 = b.2.1 := by
        intro b hb hab
        refine hrest b hb a2 a3 ?_
        rw [List.lookup]
        simp [hab]
      refine ⟨?_, ?_⟩
      · intro c hc m t hmt
        rcases List.mem_cons.mp hc with heq | hm
        · rw [heq]
          rw [heq] at hmt
          exact hhd m t hmt
        · by_cases hca : c.1 = a1
          · have h5 : m = a2 := by
              rw [hca] at hmt
              exact hhd m t hmt
            rw [h5]
            exact hagree c hm hca
          · have hb1 : (c.1 == a1) = false := beq_eq_false_iff_ne.mpr hca
            refine hrest c hm m t ?_
            rw [List.lookup]
            simp only [hb1]
            exact hmt
      · intro c hc d hd hcd
        rcases List.mem_cons.mp hc with hceq | hcm <;>
          rcases List.mem_cons.mp hd with hdeq | hdm
        · rw [hceq, hdeq]
        · rw [hceq]
          rw [hceq] at hcd
          exact hagree d hdm hcd.symm
        · rw [hdeq]
          rw [hdeq] at hcd
          exact (hagree c hcm hcd).symm
        · exact hpair c hcm d hdm hcd
    · rintro ⟨hseen, hpair⟩
      refine ⟨hseen (a1, a2, a3) (by simp), ?_,
        fun b hb c hc => hpair b (by simp [hb]) c (by simp [hc])⟩
      intro b hb m t hmt
      by_cases hab : b.1 = a1
      · have hb1 : (b.1 == a1) = true := beq_iff_eq.mpr hab
        rw [List.lookup] at hmt
        simp only [hb1] at hmt
        injection hmt with h5
        have h6 : a2 = m := congrArg Prod.fst h5
        rw [← h6]
        exact hpair (a1, a2, a3) (by simp) b (by simp [hb]) hab.symm
      · have hb1 : (b.1 == a1) = false := beq_eq_false_iff_ne.mpr hab
        rw [List.lookup] at hmt
        simp only [hb1] at hmt
        exact hseen b (by simp [hb]) m t hmt

/-- C5: policy loading fails if and only if validation finds a fault in
the document — an empty table key, an empty column key, a mask outside
the enumeration, or two distinct non-None masks on the same bare column
name anywhere in the document; in particular the conflicting document
(`users.email: redact` with `orders.email: hash`) fails to load while the
same mask on a shared column name in two tables loads successfully. -/
theorem policy_load_iff_fault :
    (∀ tables : PolicyDoc, validatePolicy tables = none ↔
      structOk tables ∧ noConflict tables) ∧
    validatePolicy conflictDoc ≠ none ∧
    validatePolicy sameMaskDoc = none := by
  refine ⟨?_, by decide, by rfl⟩
  intro tables
  rw [show validatePolicy tables = validateTables tables [] from rfl]
  rw [validateTables_none_iff tables []]
  constructor
  · intro ⟨hs, hcomp⟩
    exact ⟨hs, ((compatible_iff_agree (maskAssignments tables) []).mp hcomp).2⟩
  · intro ⟨hs, hnc⟩
    refine ⟨hs, ?_⟩
    rw [compatible_iff_agree]
    refine ⟨?_, hnc⟩
    intro a ha m t hmt
    simp [List.lookup] at hmt

/-- Witness for C5: the no-fault direction of the iff at the empty
document. -/
theorem policy_load_iff_fault_witness :
    validatePolicy [] = none :=
  (policy_load_iff_fault.1 []).mpr ⟨by simp [structOk], by simp [noConflict, maskAssignments]⟩
